import Mathlib

/-!
Verification development for the OAuth 2.1 authorization server and HTTP/SSE
session layer of the generic-go-mcp repository.

The Go source is shallowly embedded: BoltDB buckets become association lists,
wall-clock time becomes a `Nat` count of seconds passed explicitly to each
handler, the crypto-library SHA-256/base64url step of PKCE becomes a function
parameter, random token generation becomes explicit fresh-string parameters,
and outbound network calls (GitHub code exchange, profile and membership
fetches) become `Except`-valued inputs.  Each handler is a pure function from
its request data and the store to a response and an updated store; every Go
storage transaction is one Lean function application.
-/

namespace GoMcp

/-- Association-list lookup keyed by strings; models a BoltDB bucket `Get`. -/
def lookupA {α : Type} (l : List (String × α)) (k : String) : Option α :=
  (l.find? (fun p => p.1 == k)).map Prod.snd

/-- Insert or replace a key in a bucket; models a BoltDB bucket `Put`. -/
def insertA {α : Type} (l : List (String × α)) (k : String) (v : α) : List (String × α) :=
  (k, v) :: l.filter (fun p => p.1 != k)

/-- Remove a key from a bucket; models a BoltDB bucket `Delete`. -/
def eraseA {α : Type} (l : List (String × α)) (k : String) : List (String × α) :=
  l.filter (fun p => p.1 != k)

/-! ## Data model (src/auth/auth.go) -/

/-- User record from src/auth/auth.go. -/
structure User where
  id : String
  gitHubLogin : String
  gitHubID : Int
  email : String
  name : String
  avatarURL : String
  deriving Repr, DecidableEq

/-- AuthorizationCode record from src/auth/auth.go; expiry in seconds. -/
structure AuthorizationCode where
  code : String
  clientID : String
  redirectURI : String
  scope : String
  codeChallenge : String
  codeChallengeMethod : String
  resource : String
  userID : String
  expiresAt : Nat
  createdAt : Nat
  deriving Repr, DecidableEq

/-- AccessToken record from src/auth/auth.go. -/
structure AccessToken where
  token : String
  tokenType : String
  clientID : String
  userID : String
  scope : String
  resource : String
  expiresAt : Nat
  createdAt : Nat
  deriving Repr, DecidableEq

/-- RefreshToken record from src/auth/auth.go. -/
structure RefreshToken where
  token : String
  clientID : String
  userID : String
  scope : String
  resource : String
  expiresAt : Nat
  createdAt : Nat
  deriving Repr, DecidableEq

/-- RegisteredClient record from src/auth/auth.go (fields the handlers read). -/
structure RegisteredClient where
  clientID : String
  clientSecret : String
  clientName : String
  redirectURIs : List String
  isStatic : Bool
  createdAt : Nat
  deriving Repr, DecidableEq

/-- AuthSession record from src/auth/auth.go. -/
structure AuthSession where
  sessionID : String
  userID : String
  clientID : String
  accessToken : String
  createdAt : Nat
  lastUsedAt : Nat
  deriving Repr, DecidableEq

/-- PendingAuthRequest record from src/auth/auth.go. -/
structure PendingAuthRequest where
  id : String
  clientID : String
  redirectURI : String
  scope : String
  state : String
  codeChallenge : String
  codeChallengeMethod : String
  resource : String
  createdAt : Nat
  expiresAt : Nat
  deriving Repr, DecidableEq

/-- The persistent store: the BoltDB buckets of the storage layer, including
the two secondary indices (users by GitHub login, sessions by access token). -/
structure Store where
  authCodes : List (String × AuthorizationCode)
  accessTokens : List (String × AccessToken)
  refreshTokens : List (String × RefreshToken)
  clients : List (String × RegisteredClient)
  users : List (String × User)
  usersByGitHub : List (String × String)
  sessions : List (String × AuthSession)
  sessionsByToken : List (String × String)
  authRequests : List (String × PendingAuthRequest)
  deriving Repr, DecidableEq

/-- The empty store (all buckets freshly created). -/
def Store.empty : Store :=
  ⟨[], [], [], [], [], [], [], [], []⟩

/-! ## Store operations (storage layer, BoltStorage methods) -/

def GetAuthCode (st : Store) (code : String) : Option AuthorizationCode :=
  lookupA st.authCodes code

def StoreAuthCode (st : Store) (c : AuthorizationCode) : Store :=
  { st with authCodes := insertA st.authCodes c.code c }

def DeleteAuthCode (st : Store) (code : String) : Store :=
  { st with authCodes := eraseA st.authCodes code }

def GetAccessToken (st : Store) (token : String) : Option AccessToken :=
  lookupA st.accessTokens token

def StoreAccessToken (st : Store) (t : AccessToken) : Store :=
  { st with accessTokens := insertA st.accessTokens t.token t }

def GetRefreshToken (st : Store) (token : String) : Option RefreshToken :=
  lookupA st.refreshTokens token

def StoreRefreshToken (st : Store) (t : RefreshToken) : Store :=
  { st with refreshTokens := insertA st.refreshTokens t.token t }

def DeleteRefreshToken (st : Store) (token : String) : Store :=
  { st with refreshTokens := eraseA st.refreshTokens token }

def GetClient (st : Store) (clientID : String) : Option RegisteredClient :=
  lookupA st.clients clientID

def StoreClient (st : Store) (c : RegisteredClient) : Store :=
  { st with clients := insertA st.clients c.clientID c }

/-- StoreUser writes the user record and its login index in one transaction. -/
def StoreUser (st : Store) (u : User) : Store :=
  { st with
    users := insertA st.users u.id u,
    usersByGitHub := insertA st.usersByGitHub u.gitHubLogin u.id }

def GetUser (st : Store) (userID : String) : Option User :=
  lookupA st.users userID

def GetUserByGitHubLogin (st : Store) (login : String) : Option User :=
  match lookupA st.usersByGitHub login with
  | none => none
  | some userID => lookupA st.users userID

/-- StoreSession writes the session record and its token index in one
transaction. -/
def StoreSession (st : Store) (s : AuthSession) : Store :=
  { st with
    sessions := insertA st.sessions s.sessionID s,
    sessionsByToken := insertA st.sessionsByToken s.accessToken s.sessionID }

def GetSession (st : Store) (sessionID : String) : Option AuthSession :=
  lookupA st.sessions sessionID

/-- DeleteSession removes the token-index entry of the stored session (when
the session exists) together with the session record, in one transaction. -/
def DeleteSession (st : Store) (sessionID : String) : Store :=
  match lookupA st.sessions sessionID with
  | some s =>
      { st with
        sessions := eraseA st.sessions sessionID,
        sessionsByToken := eraseA st.sessionsByToken s.accessToken }
  | none => { st with sessions := eraseA st.sessions sessionID }

def GetAuthRequest (st : Store) (id : String) : Option PendingAuthRequest :=
  lookupA st.authRequests id

def StoreAuthRequest (st : Store) (r : PendingAuthRequest) : Store :=
  { st with authRequests := insertA st.authRequests r.id r }

def DeleteAuthRequest (st : Store) (id : String) : Store :=
  { st with authRequests := eraseA st.authRequests id }

/-! ## Basic lemmas about the bucket operations -/

theorem lookupA_cons {α : Type} (p : String × α) (t : List (String × α)) (k : String) :
    lookupA (p :: t) k = if p.1 == k then some p.2 else lookupA t k := by
  cases h : p.1 == k <;> simp [lookupA, List.find?_cons, h]

theorem lookupA_eraseA_self {α : Type} (l : List (String × α)) (k : String) :
    lookupA (eraseA l k) k = none := by
  induction l with
  | nil => rfl
  | cons p t ih =>
    cases h : p.1 == k with
    | true =>
      have hpk : p.1 = k := by simpa using h
      rw [show eraseA (p :: t) k = eraseA t k by
        simp [eraseA, List.filter_cons, hpk]]
      exact ih
    | false =>
      have hpk : p.1 ≠ k := by simpa using h
      rw [show eraseA (p :: t) k = p :: eraseA t k by
        simp [eraseA, List.filter_cons, hpk]]
      rw [lookupA_cons, h]
      simpa using ih

theorem lookupA_eraseA_ne {α : Type} (l : List (String × α)) (k k2 : String)
    (h : k2 ≠ k) : lookupA (eraseA l k) k2 = lookupA l k2 := by
  induction l with
  | nil => rfl
  | cons p t ih =>
    cases hp : p.1 == k with
    | true =>
      have hpk : p.1 = k := by simpa using hp
      have hpk2 : (p.1 == k2) = false := by
        rw [hpk]
        simpa using fun hc : k = k2 => h hc.symm
      rw [show eraseA (p :: t) k = eraseA t k by
        simp [eraseA, List.filter_cons, hpk]]
      rw [ih]
      rw [lookupA_cons, hpk2]
      simp
    | false =>
      have hpk : p.1 ≠ k := by simpa using hp
      rw [show eraseA (p :: t) k = p :: eraseA t k by
        simp [eraseA, List.filter_cons, hpk]]
      rw [lookupA_cons, lookupA_cons, ih]

theorem lookupA_insertA_self {α : Type} (l : List (String × α)) (k : String) (v : α) :
    lookupA (insertA l k v) k = some v := by
  simp [insertA, lookupA_cons]

theorem lookupA_insertA_ne {α : Type} (l : List (String × α)) (k k2 : String) (v : α)
    (h : k2 ≠ k) : lookupA (insertA l k v) k2 = lookupA l k2 := by
  have hk : (k == k2) = false := by
    simpa using fun hc : k = k2 => h hc.symm
  rw [show insertA l k v = (k, v) :: eraseA l k from rfl, lookupA_cons]
  simp only [hk, if_false]
  exact lookupA_eraseA_ne l k k2 h

/-! ## PKCE (src/auth/pkce.go) -/

/-- Character class of the verifier pattern regexp, unreserved characters
[A-Za-z0-9-._~]. -/
def isPkceChar (c : Char) : Bool :=
  (decide (c ≥ 'A') && decide (c ≤ 'Z')) ||
  (decide (c ≥ 'a') && decide (c ≤ 'z')) ||
  (decide (c ≥ '0') && decide (c ≤ '9')) ||
  c == '-' || c == '.' || c == '_' || c == '~'

/-- The compiled verifier pattern: 43 to 128 characters from the class. -/
def pkceVerifierPatternMatch (s : String) : Bool :=
  Nat.ble 43 s.length && Nat.ble s.length 128 && s.data.all isPkceChar

/-- ValidatePKCE from src/auth/pkce.go.  The call to the crypto library
(base64url of the SHA-256 digest, no padding) is abstracted as the function
argument s256; the rest follows the source exactly. -/
def ValidatePKCE (s256 : String → String)
    (codeVerifier codeChallenge method : String) : Except String Unit :=
  if codeVerifier == "" then
    .error "code_verifier is required (PKCE is mandatory)"
  else if !(pkceVerifierPatternMatch codeVerifier) then
    .error "invalid code_verifier format"
  else
    let computed : Except String String :=
      if method == "S256" || method == "" then .ok (s256 codeVerifier)
      else if method == "plain" then .ok codeVerifier
      else .error ("unsupported code_challenge_method: " ++ method)
    match computed with
    | .error e => .error e
    | .ok c =>
        if c != codeChallenge then
          .error "code_verifier does not match code_challenge"
        else .ok ()

/-- ValidateCodeChallenge from src/auth/pkce.go (authorize-time check). -/
def ValidateCodeChallenge (codeChallenge method : String) : Except String Unit :=
  if codeChallenge == "" then
    .error "code_challenge is required (PKCE is mandatory)"
  else if (method == "S256" || method == "") && codeChallenge.length != 43 then
    .error "invalid code_challenge length for S256"
  else .ok ()

/-! ## Token service (src/auth/tokens.go) -/

/-- Access token time to live, one hour, in seconds. -/
def AccessTokenTTL : Nat := 3600

/-- Refresh token time to live, thirty days, in seconds. -/
def RefreshTokenTTL : Nat := 2592000

/-- Authorization code time to live, ten minutes, in seconds. -/
def AuthCodeTTL : Nat := 600

/-- GenerateAccessToken from src/auth/tokens.go; the random token value is the
explicit parameter fresh, the wall clock is the parameter now. -/
def GenerateAccessToken (now : Nat) (fresh userID clientID scope resource : String)
    (st : Store) : AccessToken × Store :=
  let t : AccessToken :=
    { token := fresh, tokenType := "Bearer", clientID := clientID, userID := userID,
      scope := scope, resource := resource,
      expiresAt := now + AccessTokenTTL, createdAt := now }
  (t, StoreAccessToken st t)

/-- GenerateRefreshToken from src/auth/tokens.go. -/
def GenerateRefreshToken (now : Nat) (fresh userID clientID scope resource : String)
    (st : Store) : RefreshToken × Store :=
  let t : RefreshToken :=
    { token := fresh, clientID := clientID, userID := userID,
      scope := scope, resource := resource,
      expiresAt := now + RefreshTokenTTL, createdAt := now }
  (t, StoreRefreshToken st t)

/-- Failure reasons of access-token validation (sentinel errors of the source). -/
inductive TokenErr
  | notFound
  | expired
  deriving Repr, DecidableEq

/-- ValidateAccessToken from src/auth/tokens.go. -/
def ValidateAccessToken (now : Nat) (st : Store) (token : String) :
    Except TokenErr AccessToken :=
  match GetAccessToken st token with
  | none => .error .notFound
  | some t => if now > t.expiresAt then .error .expired else .ok t

/-! ## Token endpoint grants (src/auth/handlers.go) -/

/-- The JSON body of a successful token response. -/
structure TokenResponse where
  accessToken : String
  tokenType : String
  expiresIn : Nat
  refreshToken : String
  scope : String
  deriving Repr, DecidableEq

/-- Outcome of a token-endpoint grant handler: a 400 OAuth error JSON body, or
a 200 JSON token response. -/
inductive TokenResult
  | err (errorCode description : String)
  | ok (resp : TokenResponse)
  deriving Repr, DecidableEq

/-- Form fields of a grant_type=authorization_code request. -/
structure AuthCodeGrantRequest where
  code : String
  redirectURI : String
  clientID : String
  codeVerifier : String
  resource : String

/-- handleAuthCodeGrant from src/auth/handlers.go.  freshAccess and
freshRefresh are the random values the token service would draw. -/
def handleAuthCodeGrant (s256 : String → String) (now : Nat)
    (freshAccess freshRefresh : String) (req : AuthCodeGrantRequest)
    (st : Store) : TokenResult × Store :=
  match GetAuthCode st req.code with
  | none => (.err "invalid_grant" "Invalid authorization code", st)
  | some authCode =>
    let st1 := DeleteAuthCode st req.code
    if now > authCode.expiresAt then
      (.err "invalid_grant" "Authorization code expired", st1)
    else if authCode.clientID != req.clientID then
      (.err "invalid_grant" "Client ID mismatch", st1)
    else if authCode.redirectURI != req.redirectURI then
      (.err "invalid_grant" "Redirect URI mismatch", st1)
    else
      match ValidatePKCE s256 req.codeVerifier authCode.codeChallenge
          authCode.codeChallengeMethod with
      | .error e => (.err "invalid_grant" e, st1)
      | .ok _ =>
        if req.resource != "" && authCode.resource != "" &&
            req.resource != authCode.resource then
          (.err "invalid_target" "Resource mismatch", st1)
        else
          let p1 := GenerateAccessToken now freshAccess authCode.userID
            req.clientID authCode.scope authCode.resource st1
          let p2 := GenerateRefreshToken now freshRefresh authCode.userID
            req.clientID authCode.scope authCode.resource p1.2
          (.ok { accessToken := p1.1.token, tokenType := "Bearer",
                 expiresIn := p1.1.expiresAt - now,
                 refreshToken := p2.1.token, scope := p1.1.scope }, p2.2)

/-- handleRefreshTokenGrant from src/auth/handlers.go. -/
def handleRefreshTokenGrant (now : Nat) (freshAccess freshRefresh : String)
    (refreshTokenStr clientID : String) (st : Store) : TokenResult × Store :=
  match GetRefreshToken st refreshTokenStr with
  | none => (.err "invalid_grant" "Invalid refresh token", st)
  | some rt =>
    if now > rt.expiresAt then
      (.err "invalid_grant" "Refresh token expired",
        DeleteRefreshToken st refreshTokenStr)
    else if rt.clientID != clientID then
      (.err "invalid_grant" "Client ID mismatch", st)
    else
      let st1 := DeleteRefreshToken st refreshTokenStr
      let p1 := GenerateAccessToken now freshAccess rt.userID clientID
        rt.scope rt.resource st1
      let p2 := GenerateRefreshToken now freshRefresh rt.userID clientID
        rt.scope rt.resource p1.2
      (.ok { accessToken := p1.1.token, tokenType := "Bearer",
             expiresIn := p1.1.expiresAt - now,
             refreshToken := p2.1.token, scope := p1.1.scope }, p2.2)

/-! ## Claim C3 -/

/-- C3: for every verifier of 43 to 128 characters drawn from the unreserved
set [A-Za-z0-9-._~], S256 validation against the stored challenge computed
from that verifier succeeds; validation fails whenever the verifier is empty,
the verifier does not match the pattern, the method is neither S256 nor plain
nor empty, or the computed value differs from the stored challenge (for
plain, whenever the verifier itself differs from the challenge). -/
theorem pkce_validation_roundtrip_and_failures
    (s256 : String → String) (v challenge method : String) :
    (pkceVerifierPatternMatch v = true →
      ValidatePKCE s256 v (s256 v) "S256" = .ok ())
    ∧ ValidatePKCE s256 "" challenge method ≠ .ok ()
    ∧ (pkceVerifierPatternMatch v = false →
      ValidatePKCE s256 v challenge method ≠ .ok ())
    ∧ (method ≠ "S256" → method ≠ "plain" → method ≠ "" →
      ValidatePKCE s256 v challenge method ≠ .ok ())
    ∧ ((method = "S256" ∨ method = "") → s256 v ≠ challenge →
      ValidatePKCE s256 v challenge method ≠ .ok ())
    ∧ (v ≠ challenge → ValidatePKCE s256 v challenge "plain" ≠ .ok ()) := by
  have hemp : pkceVerifierPatternMatch "" = false := by decide
  refine ⟨?_, ?_, ?_, ?_, ?_, ?_⟩
  · intro h
    have hne : (v == "") = false := by
      cases hv : v == "" with
      | false => rfl
      | true =>
        have hv2 : v = "" := by simpa using hv
        rw [hv2, hemp] at h
        cases h
    simp [ValidatePKCE, hne, h]
  · simp [ValidatePKCE]
  · intro h
    cases hv : v == "" with
    | true => simp [ValidatePKCE, hv]
    | false => simp [ValidatePKCE, hv, h]
  · intro h1 h2 h3
    have hm1 : (method == "S256") = false := by simpa using h1
    have hm2 : (method == "plain") = false := by simpa using h2
    have hm3 : (method == "") = false := by simpa using h3
    cases hv : v == "" with
    | true => simp [ValidatePKCE, hv]
    | false =>
      cases hp : pkceVerifierPatternMatch v with
      | false => simp [ValidatePKCE, hv, hp]
      | true => simp [ValidatePKCE, hv, hp, hm1, hm2, hm3]
  · intro hm hne
    have hbne : (s256 v != challenge) = true := by simpa using hne
    cases hv : v == "" with
    | true => simp [ValidatePKCE, hv]
    | false =>
      cases hp : pkceVerifierPatternMatch v with
      | false => simp [ValidatePKCE, hv, hp]
      | true =>
        rcases hm with h | h <;> subst h <;>
          simp [ValidatePKCE, hv, hp, hbne]
  · intro hne
    have hbne : (v != challenge) = true := by simpa using hne
    cases hv : v == "" with
    | true => simp [ValidatePKCE, hv]
    | false =>
      cases hp : pkceVerifierPatternMatch v with
      | false => simp [ValidatePKCE, hv, hp]
      | true => simp [ValidatePKCE, hv, hp, hbne]

/-- Concrete evaluation of the C3 theorem at a 43-character verifier, with the
identity function standing in for the abstract digest. -/
theorem pkce_validation_roundtrip_and_failures_witness :
    ValidatePKCE (fun s => s) "aaaaaaaaaaaaaaaaaaaaaaaaaaaaaaaaaaaaaaaaaaa"
      "aaaaaaaaaaaaaaaaaaaaaaaaaaaaaaaaaaaaaaaaaaa" "S256" = .ok ()
    ∧ ValidatePKCE (fun s => s) "" "c" "S256" ≠ .ok ()
    ∧ ValidatePKCE (fun s => s) "ab" "c" "S256" ≠ .ok ()
    ∧ ValidatePKCE (fun s => s) "aaaaaaaaaaaaaaaaaaaaaaaaaaaaaaaaaaaaaaaaaaa"
      "c" "S999" ≠ .ok ()
    ∧ ValidatePKCE (fun s => s) "aaaaaaaaaaaaaaaaaaaaaaaaaaaaaaaaaaaaaaaaaaa"
      "c" "S256" ≠ .ok ()
    ∧ ValidatePKCE (fun s => s) "aaaaaaaaaaaaaaaaaaaaaaaaaaaaaaaaaaaaaaaaaaa"
      "c" "plain" ≠ .ok () :=
  ⟨(pkce_validation_roundtrip_and_failures (fun s => s)
      "aaaaaaaaaaaaaaaaaaaaaaaaaaaaaaaaaaaaaaaaaaa" "c" "S256").1 (by decide),
   (pkce_validation_roundtrip_and_failures (fun s => s)
      "aaaaaaaaaaaaaaaaaaaaaaaaaaaaaaaaaaaaaaaaaaa" "c" "S256").2.1,
   (pkce_validation_roundtrip_and_failures (fun s => s)
      "ab" "c" "S256").2.2.1 (by decide),
   (pkce_validation_roundtrip_and_failures (fun s => s)
      "aaaaaaaaaaaaaaaaaaaaaaaaaaaaaaaaaaaaaaaaaaa" "c" "S999").2.2.2.1
      (by decide) (by decide) (by decide),
   (pkce_validation_roundtrip_and_failures (fun s => s)
      "aaaaaaaaaaaaaaaaaaaaaaaaaaaaaaaaaaaaaaaaaaa" "c" "S256").2.2.2.2.1
      (Or.inl rfl) (by decide),
   (pkce_validation_roundtrip_and_failures (fun s => s)
      "aaaaaaaaaaaaaaaaaaaaaaaaaaaaaaaaaaaaaaaaaaa" "c" "plain").2.2.2.2.2
      (by decide)⟩

/-! ## Reduction lemmas for the token grants -/

/-- On a stored, unexpired refresh token of the requesting client, the refresh
grant rotates the token and answers with the fresh pair. -/
theorem handleRefreshTokenGrant_success (now : Nat) (fa fr tok : String)
    (st : Store) (rt : RefreshToken)
    (hpresent : GetRefreshToken st tok = some rt)
    (hnotexp : ¬ now > rt.expiresAt) :
    handleRefreshTokenGrant now fa fr tok rt.clientID st =
      (.ok { accessToken := fa, tokenType := "Bearer", expiresIn := AccessTokenTTL,
             refreshToken := fr, scope := rt.scope },
       StoreRefreshToken
         (StoreAccessToken (DeleteRefreshToken st tok)
           { token := fa, tokenType := "Bearer", clientID := rt.clientID,
             userID := rt.userID, scope := rt.scope, resource := rt.resource,
             expiresAt := now + AccessTokenTTL, createdAt := now })
         { token := fr, clientID := rt.clientID, userID := rt.userID,
           scope := rt.scope, resource := rt.resource,
           expiresAt := now + RefreshTokenTTL, createdAt := now }) := by
  simp [handleRefreshTokenGrant, hpresent, hnotexp, GenerateAccessToken,
    GenerateRefreshToken, AccessTokenTTL]

/-! ## Claim C1 -/

/-- C1: a stored authorization code presented to the authorization_code grant
is deleted from the store before any further validation, hence absent after
the attempt whatever its outcome, and a second redemption of the same code
fails with error invalid_grant. -/
theorem auth_code_single_use (s256 : String → String)
    (now now2 : Nat) (fa fr fa2 fr2 : String)
    (req req2 : AuthCodeGrantRequest) (st : Store) (c : AuthorizationCode)
    (hpresent : GetAuthCode st req.code = some c)
    (hsame : req2.code = req.code) :
    GetAuthCode (handleAuthCodeGrant s256 now fa fr req st).2 req.code = none
    ∧ (handleAuthCodeGrant s256 now2 fa2 fr2 req2
        (handleAuthCodeGrant s256 now fa fr req st).2).1
      = .err "invalid_grant" "Invalid authorization code" := by
  have hnone :
      GetAuthCode (handleAuthCodeGrant s256 now fa fr req st).2 req.code = none := by
    simp only [handleAuthCodeGrant, hpresent]
    split
    · exact lookupA_eraseA_self _ _
    split
    · exact lookupA_eraseA_self _ _
    split
    · exact lookupA_eraseA_self _ _
    split
    · exact lookupA_eraseA_self _ _
    split
    · exact lookupA_eraseA_self _ _
    · exact lookupA_eraseA_self _ _
  refine ⟨hnone, ?_⟩
  have hnone2 :
      GetAuthCode (handleAuthCodeGrant s256 now fa fr req st).2 req2.code = none := by
    rw [hsame]
    exact hnone
  generalize hg : (handleAuthCodeGrant s256 now fa fr req st).2 = st2 at hnone2 ⊢
  simp only [handleAuthCodeGrant, hnone2]

/-- Concrete evaluation of the C1 theorem: a stored code is redeemed once,
then is gone, and the second attempt answers invalid_grant. -/
theorem auth_code_single_use_witness :
    GetAuthCode
      (StoreAuthCode Store.empty
        { code := "c1", clientID := "cl", redirectURI := "https://client/cb",
          scope := "s", codeChallenge := "x", codeChallengeMethod := "plain",
          resource := "", userID := "u", expiresAt := 600, createdAt := 0 })
      "c1"
      = some { code := "c1", clientID := "cl", redirectURI := "https://client/cb",
               scope := "s", codeChallenge := "x", codeChallengeMethod := "plain",
               resource := "", userID := "u", expiresAt := 600, createdAt := 0 }
    ∧ (GetAuthCode
        (handleAuthCodeGrant (fun s => s) 5 "at1" "rt1"
          { code := "c1", redirectURI := "https://client/cb", clientID := "cl",
            codeVerifier := "x", resource := "" }
          (StoreAuthCode Store.empty
            { code := "c1", clientID := "cl", redirectURI := "https://client/cb",
              scope := "s", codeChallenge := "x", codeChallengeMethod := "plain",
              resource := "", userID := "u", expiresAt := 600, createdAt := 0 })).2
        "c1" = none
      ∧ (handleAuthCodeGrant (fun s => s) 6 "at2" "rt2"
          { code := "c1", redirectURI := "https://client/cb", clientID := "cl",
            codeVerifier := "x", resource := "" }
          (handleAuthCodeGrant (fun s => s) 5 "at1" "rt1"
            { code := "c1", redirectURI := "https://client/cb", clientID := "cl",
              codeVerifier := "x", resource := "" }
            (StoreAuthCode Store.empty
              { code := "c1", clientID := "cl", redirectURI := "https://client/cb",
                scope := "s", codeChallenge := "x", codeChallengeMethod := "plain",
                resource := "", userID := "u", expiresAt := 600, createdAt := 0 })).2).1
        = .err "invalid_grant" "Invalid authorization code") :=
  ⟨by decide,
   auth_code_single_use (fun s => s) 5 6 "at1" "rt1" "at2" "rt2"
     { code := "c1", redirectURI := "https://client/cb", clientID := "cl",
       codeVerifier := "x", resource := "" }
     { code := "c1", redirectURI := "https://client/cb", clientID := "cl",
       codeVerifier := "x", resource := "" }
     (StoreAuthCode Store.empty
       { code := "c1", clientID := "cl", redirectURI := "https://client/cb",
         scope := "s", codeChallenge := "x", codeChallengeMethod := "plain",
         resource := "", userID := "u", expiresAt := 600, createdAt := 0 })
     { code := "c1", clientID := "cl", redirectURI := "https://client/cb",
       scope := "s", codeChallenge := "x", codeChallengeMethod := "plain",
       resource := "", userID := "u", expiresAt := 600, createdAt := 0 }
     (by decide) rfl⟩

/-! ## Claim C2 -/

/-- C2: a stored, unexpired refresh token redeemed with the matching client id
is deleted and replaced: the response carries a fresh access and refresh pair,
the new refresh token is stored with the user id, scope and resource of the
presented one, the old token is gone, and a second redemption of the old token
fails with invalid_grant. -/
theorem refresh_token_rotation (now now2 : Nat)
    (fa fr fa2 fr2 tok clientID : String) (st : Store) (rt : RefreshToken)
    (hpresent : GetRefreshToken st tok = some rt)
    (hnotexp : ¬ now > rt.expiresAt)
    (hclient : rt.clientID = clientID)
    (hfr : fr ≠ tok) :
    (handleRefreshTokenGrant now fa fr tok clientID st).1
      = .ok { accessToken := fa, tokenType := "Bearer", expiresIn := AccessTokenTTL,
              refreshToken := fr, scope := rt.scope }
    ∧ GetRefreshToken (handleRefreshTokenGrant now fa fr tok clientID st).2 fr
      = some { token := fr, clientID := clientID, userID := rt.userID,
               scope := rt.scope, resource := rt.resource,
               expiresAt := now + RefreshTokenTTL, createdAt := now }
    ∧ GetAccessToken (handleRefreshTokenGrant now fa fr tok clientID st).2 fa
      = some { token := fa, tokenType := "Bearer", clientID := clientID,
               userID := rt.userID, scope := rt.scope, resource := rt.resource,
               expiresAt := now + AccessTokenTTL, createdAt := now }
    ∧ GetRefreshToken (handleRefreshTokenGrant now fa fr tok clientID st).2 tok = none
    ∧ (handleRefreshTokenGrant now2 fa2 fr2 tok clientID
        (handleRefreshTokenGrant now fa fr tok clientID st).2).1
      = .err "invalid_grant" "Invalid refresh token" := by
  subst hclient
  have hred := handleRefreshTokenGrant_success now fa fr tok st rt hpresent hnotexp
  rw [hred]
  refine ⟨rfl, lookupA_insertA_self _ _ _, lookupA_insertA_self _ _ _, ?_, ?_⟩
  · exact (lookupA_insertA_ne _ _ _ _ (Ne.symm hfr)).trans (lookupA_eraseA_self _ _)
  · have h4 : GetRefreshToken
        (StoreRefreshToken
          (StoreAccessToken (DeleteRefreshToken st tok)
            { token := fa, tokenType := "Bearer", clientID := rt.clientID,
              userID := rt.userID, scope := rt.scope, resource := rt.resource,
              expiresAt := now + AccessTokenTTL, createdAt := now })
          { token := fr, clientID := rt.clientID, userID := rt.userID,
            scope := rt.scope, resource := rt.resource,
            expiresAt := now + RefreshTokenTTL, createdAt := now }) tok = none :=
      (lookupA_insertA_ne _ _ _ _ (Ne.symm hfr)).trans (lookupA_eraseA_self _ _)
    simp only [handleRefreshTokenGrant, h4]

/-- Concrete evaluation of the C2 theorem: one refresh token rotated once,
then rejected. -/
theorem refresh_token_rotation_witness :
    GetRefreshToken
      (StoreRefreshToken Store.empty
        { token := "r1", clientID := "cl", userID := "u", scope := "s",
          resource := "", expiresAt := 100, createdAt := 0 }) "r1"
      = some { token := "r1", clientID := "cl", userID := "u", scope := "s",
               resource := "", expiresAt := 100, createdAt := 0 }
    ∧ ¬ (5 : Nat) > 100
    ∧ ("r2" : String) ≠ "r1"
    ∧ ((handleRefreshTokenGrant 5 "a2" "r2" "r1" "cl"
        (StoreRefreshToken Store.empty
          { token := "r1", clientID := "cl", userID := "u", scope := "s",
            resource := "", expiresAt := 100, createdAt := 0 })).1
      = .ok { accessToken := "a2", tokenType := "Bearer", expiresIn := AccessTokenTTL,
              refreshToken := "r2", scope := "s" }
      ∧ GetRefreshToken (handleRefreshTokenGrant 5 "a2" "r2" "r1" "cl"
          (StoreRefreshToken Store.empty
            { token := "r1", clientID := "cl", userID := "u", scope := "s",
              resource := "", expiresAt := 100, createdAt := 0 })).2 "r2"
        = some { token := "r2", clientID := "cl", userID := "u", scope := "s",
                 resource := "", expiresAt := 5 + RefreshTokenTTL, createdAt := 5 }
      ∧ GetAccessToken (handleRefreshTokenGrant 5 "a2" "r2" "r1" "cl"
          (StoreRefreshToken Store.empty
            { token := "r1", clientID := "cl", userID := "u", scope := "s",
              resource := "", expiresAt := 100, createdAt := 0 })).2 "a2"
        = some { token := "a2", tokenType := "Bearer", clientID := "cl",
                 userID := "u", scope := "s", resource := "",
                 expiresAt := 5 + AccessTokenTTL, createdAt := 5 }
      ∧ GetRefreshToken (handleRefreshTokenGrant 5 "a2" "r2" "r1" "cl"
          (StoreRefreshToken Store.empty
            { token := "r1", clientID := "cl", userID := "u", scope := "s",
              resource := "", expiresAt := 100, createdAt := 0 })).2 "r1" = none
      ∧ (handleRefreshTokenGrant 6 "a3" "r3" "r1" "cl"
          (handleRefreshTokenGrant 5 "a2" "r2" "r1" "cl"
            (StoreRefreshToken Store.empty
              { token := "r1", clientID := "cl", userID := "u", scope := "s",
                resource := "", expiresAt := 100, createdAt := 0 })).2).1
        = .err "invalid_grant" "Invalid refresh token") :=
  ⟨by decide, by decide, by decide,
   refresh_token_rotation 5 6 "a2" "r2" "a3" "r3" "r1" "cl"
     (StoreRefreshToken Store.empty
       { token := "r1", clientID := "cl", userID := "u", scope := "s",
         resource := "", expiresAt := 100, createdAt := 0 })
     { token := "r1", clientID := "cl", userID := "u", scope := "s",
       resource := "", expiresAt := 100, createdAt := 0 }
     (by decide) (by decide) rfl (by decide)⟩

/-- On a stored, unexpired code whose client id, redirect URI, PKCE verifier
and resource all check out, the authorization_code grant answers with a fresh
token pair. -/
theorem handleAuthCodeGrant_success (s256 : String → String) (now : Nat)
    (fa fr : String) (req : AuthCodeGrantRequest) (st : Store)
    (c : AuthorizationCode)
    (hpresent : GetAuthCode st req.code = some c)
    (hnotexp : ¬ now > c.expiresAt)
    (hclient : c.clientID = req.clientID)
    (hredir : c.redirectURI = req.redirectURI)
    (hpkce : ValidatePKCE s256 req.codeVerifier c.codeChallenge
      c.codeChallengeMethod = .ok ())
    (hres : (req.resource != "" && c.resource != "" &&
      req.resource != c.resource) = false) :
    handleAuthCodeGrant s256 now fa fr req st =
      (.ok { accessToken := fa, tokenType := "Bearer", expiresIn := AccessTokenTTL,
             refreshToken := fr, scope := c.scope },
       StoreRefreshToken
         (StoreAccessToken (DeleteAuthCode st req.code)
           { token := fa, tokenType := "Bearer", clientID := req.clientID,
             userID := c.userID, scope := c.scope, resource := c.resource,
             expiresAt := now + AccessTokenTTL, createdAt := now })
         { token := fr, clientID := req.clientID, userID := c.userID,
           scope := c.scope, resource := c.resource,
           expiresAt := now + RefreshTokenTTL, createdAt := now }) := by
  simp [handleAuthCodeGrant, hpresent, hnotexp, hclient, hredir, hpkce, hres,
    GenerateAccessToken, GenerateRefreshToken, AccessTokenTTL]

/-! ## Claim C9 -/

/-- C9: a successful authorization_code grant answers 200 with a JSON body
carrying the access token, the refresh token and expires_in equal to 3600,
and the issued access token is stored with expires_at one hour after
issuance. -/
theorem token_response_expires_in_3600 (s256 : String → String) (now : Nat)
    (fa fr : String) (req : AuthCodeGrantRequest) (st : Store)
    (c : AuthorizationCode)
    (hpresent : GetAuthCode st req.code = some c)
    (hnotexp : ¬ now > c.expiresAt)
    (hclient : c.clientID = req.clientID)
    (hredir : c.redirectURI = req.redirectURI)
    (hpkce : ValidatePKCE s256 req.codeVerifier c.codeChallenge
      c.codeChallengeMethod = .ok ())
    (hres : (req.resource != "" && c.resource != "" &&
      req.resource != c.resource) = false) :
    (handleAuthCodeGrant s256 now fa fr req st).1
      = .ok { accessToken := fa, tokenType := "Bearer", expiresIn := 3600,
              refreshToken := fr, scope := c.scope }
    ∧ GetAccessToken (handleAuthCodeGrant s256 now fa fr req st).2 fa
      = some { token := fa, tokenType := "Bearer", clientID := req.clientID,
               userID := c.userID, scope := c.scope, resource := c.resource,
               expiresAt := now + 3600, createdAt := now } := by
  rw [handleAuthCodeGrant_success s256 now fa fr req st c hpresent hnotexp
    hclient hredir hpkce hres]
  exact ⟨rfl, lookupA_insertA_self _ _ _⟩

/-- Concrete evaluation of the C9 theorem with a plain-method PKCE pair. -/
theorem token_response_expires_in_3600_witness :
    (handleAuthCodeGrant (fun s => s) 7 "a1" "r1"
      { code := "c1", redirectURI := "https://client/cb", clientID := "cl",
        codeVerifier := "aaaaaaaaaaaaaaaaaaaaaaaaaaaaaaaaaaaaaaaaaaa",
        resource := "" }
      (StoreAuthCode Store.empty
        { code := "c1", clientID := "cl", redirectURI := "https://client/cb",
          scope := "s",
          codeChallenge := "aaaaaaaaaaaaaaaaaaaaaaaaaaaaaaaaaaaaaaaaaaa",
          codeChallengeMethod := "plain", resource := "", userID := "u",
          expiresAt := 600, createdAt := 0 })).1
      = .ok { accessToken := "a1", tokenType := "Bearer", expiresIn := 3600,
              refreshToken := "r1", scope := "s" }
    ∧ GetAccessToken (handleAuthCodeGrant (fun s => s) 7 "a1" "r1"
      { code := "c1", redirectURI := "https://client/cb", clientID := "cl",
        codeVerifier := "aaaaaaaaaaaaaaaaaaaaaaaaaaaaaaaaaaaaaaaaaaa",
        resource := "" }
      (StoreAuthCode Store.empty
        { code := "c1", clientID := "cl", redirectURI := "https://client/cb",
          scope := "s",
          codeChallenge := "aaaaaaaaaaaaaaaaaaaaaaaaaaaaaaaaaaaaaaaaaaa",
          codeChallengeMethod := "plain", resource := "", userID := "u",
          expiresAt := 600, createdAt := 0 })).2 "a1"
      = some { token := "a1", tokenType := "Bearer", clientID := "cl",
               userID := "u", scope := "s", resource := "",
               expiresAt := 7 + 3600, createdAt := 7 } :=
  token_response_expires_in_3600 (fun s => s) 7 "a1" "r1"
    { code := "c1", redirectURI := "https://client/cb", clientID := "cl",
      codeVerifier := "aaaaaaaaaaaaaaaaaaaaaaaaaaaaaaaaaaaaaaaaaaa",
      resource := "" }
    (StoreAuthCode Store.empty
      { code := "c1", clientID := "cl", redirectURI := "https://client/cb",
        scope := "s",
        codeChallenge := "aaaaaaaaaaaaaaaaaaaaaaaaaaaaaaaaaaaaaaaaaaa",
        codeChallengeMethod := "plain", resource := "", userID := "u",
        expiresAt := 600, createdAt := 0 })
    { code := "c1", clientID := "cl", redirectURI := "https://client/cb",
      scope := "s",
      codeChallenge := "aaaaaaaaaaaaaaaaaaaaaaaaaaaaaaaaaaaaaaaaaaa",
      codeChallengeMethod := "plain", resource := "", userID := "u",
      expiresAt := 600, createdAt := 0 }
    (by decide) (by decide) rfl rfl rfl (by decide)

/-! ## Claim C10 -/

/-- C10: a refresh request whose client id does not match the bound client
fails with invalid_grant and leaves the store unchanged, the token still
redeemable by the correct client; by contrast an expired refresh token is
deleted from the store even though the request fails. -/
theorem refresh_mismatch_keeps_token_expiry_deletes (now now2 : Nat)
    (fa fr fa2 fr2 tok clientID : String) (st : Store) (rt : RefreshToken)
    (hpresent : GetRefreshToken st tok = some rt) :
    (¬ now > rt.expiresAt → rt.clientID ≠ clientID →
      handleRefreshTokenGrant now fa fr tok clientID st
        = (.err "invalid_grant" "Client ID mismatch", st)
      ∧ (¬ now2 > rt.expiresAt →
        (handleRefreshTokenGrant now2 fa2 fr2 tok rt.clientID st).1
          = .ok { accessToken := fa2, tokenType := "Bearer",
                  expiresIn := AccessTokenTTL, refreshToken := fr2,
                  scope := rt.scope }))
    ∧ (now > rt.expiresAt →
      (handleRefreshTokenGrant now fa fr tok clientID st).1
        = .err "invalid_grant" "Refresh token expired"
      ∧ GetRefreshToken (handleRefreshTokenGrant now fa fr tok clientID st).2 tok
        = none) := by
  constructor
  · intro hnotexp hmm
    have hbne : (rt.clientID != clientID) = true := by simpa using hmm
    constructor
    · simp [handleRefreshTokenGrant, hpresent, hnotexp, hbne]
    · intro hnotexp2
      rw [handleRefreshTokenGrant_success now2 fa2 fr2 tok st rt hpresent hnotexp2]
  · intro hexp
    have h1 : handleRefreshTokenGrant now fa fr tok clientID st
        = (.err "invalid_grant" "Refresh token expired",
           DeleteRefreshToken st tok) := by
      simp [handleRefreshTokenGrant, hpresent, hexp]
    rw [h1]
    exact ⟨rfl, lookupA_eraseA_self _ _⟩

/-- Concrete evaluation of the C10 theorem: client mismatch preserves the
token; an expired token is deleted on the failing attempt. -/
theorem refresh_mismatch_keeps_token_expiry_deletes_witness :
    (handleRefreshTokenGrant 5 "a1" "r2" "r1" "other"
      (StoreRefreshToken Store.empty
        { token := "r1", clientID := "cl", userID := "u", scope := "s",
          resource := "", expiresAt := 100, createdAt := 0 })
      = (.err "invalid_grant" "Client ID mismatch",
         StoreRefreshToken Store.empty
           { token := "r1", clientID := "cl", userID := "u", scope := "s",
             resource := "", expiresAt := 100, createdAt := 0 })
      ∧ (handleRefreshTokenGrant 6 "a2" "r3" "r1" "cl"
          (StoreRefreshToken Store.empty
            { token := "r1", clientID := "cl", userID := "u", scope := "s",
              resource := "", expiresAt := 100, createdAt := 0 })).1
        = .ok { accessToken := "a2", tokenType := "Bearer",
                expiresIn := AccessTokenTTL, refreshToken := "r3", scope := "s" })
    ∧ ((handleRefreshTokenGrant 200 "a1" "r2" "r1" "cl"
        (StoreRefreshToken Store.empty
          { token := "r1", clientID := "cl", userID := "u", scope := "s",
            resource := "", expiresAt := 100, createdAt := 0 })).1
      = .err "invalid_grant" "Refresh token expired"
      ∧ GetRefreshToken (handleRefreshTokenGrant 200 "a1" "r2" "r1" "cl"
          (StoreRefreshToken Store.empty
            { token := "r1", clientID := "cl", userID := "u", scope := "s",
              resource := "", expiresAt := 100, createdAt := 0 })).2 "r1"
        = none) :=
  ⟨((refresh_mismatch_keeps_token_expiry_deletes 5 6 "a1" "r2" "a2" "r3" "r1"
      "other"
      (StoreRefreshToken Store.empty
        { token := "r1", clientID := "cl", userID := "u", scope := "s",
          resource := "", expiresAt := 100, createdAt := 0 })
      { token := "r1", clientID := "cl", userID := "u", scope := "s",
        resource := "", expiresAt := 100, createdAt := 0 }
      (by decide)).1 (by decide) (by decide)).imp id (fun h => h (by decide)),
   (refresh_mismatch_keeps_token_expiry_deletes 200 0 "a1" "r2" "x" "y" "r1"
      "cl"
      (StoreRefreshToken Store.empty
        { token := "r1", clientID := "cl", userID := "u", scope := "s",
          resource := "", expiresAt := 100, createdAt := 0 })
      { token := "r1", clientID := "cl", userID := "u", scope := "s",
        resource := "", expiresAt := 100, createdAt := 0 }
      (by decide)).2 (by decide)⟩

/-! ## Bearer auth middleware (src/auth/middleware.go) -/

/-- Split a header value at its first space, as strings.SplitN with limit 2:
none when the value holds no space. -/
def splitAtFirstSpace : List Char → Option (List Char × List Char)
  | [] => none
  | c :: cs =>
      if c = ' ' then some ([], cs)
      else (splitAtFirstSpace cs).map (fun p => (c :: p.1, p.2))

/-- SplitN(h, " ", 2) restricted to the two shapes the middleware checks. -/
def splitN2 (s : String) : Option (String × String) :=
  (splitAtFirstSpace s.data).map (fun p => (String.mk p.1, String.mk p.2))

/-- ASCII lower-casing of strings.ToLower as used on the auth scheme. -/
def asciiLower (s : String) : String :=
  String.mk (s.data.map (fun c =>
    if decide (c ≥ 'A') && decide (c ≤ 'Z') then Char.ofNat (c.toNat + 32) else c))

/-- A 401 response of the middleware: the WWW-Authenticate header and the
JSON body fields written by the unauthorized helper. -/
structure UnauthorizedResponse where
  status : Nat
  wwwAuthenticate : String
  bodyError : String
  bodyErrorDescription : String
  deriving Repr, DecidableEq

/-- The protected-resource metadata URL advertised on auth failures. -/
def protectedResourceMetadataURL (issuer : String) : String :=
  issuer ++ "/.well-known/oauth-protected-resource"

/-- The unauthorized helper from src/auth/middleware.go: 401, RFC 9728
WWW-Authenticate header, JSON body with error invalid_token. -/
def unauthorized (issuer message : String) : UnauthorizedResponse :=
  { status := 401,
    wwwAuthenticate := "Bearer realm=\"MCP Server\", resource_metadata=\""
      ++ protectedResourceMetadataURL issuer ++ "\"",
    bodyError := "invalid_token",
    bodyErrorDescription := message }

/-- Result of the middleware: a halted 401 response, or the request passed on
with the resolved access token and user attached to its context. -/
inductive MwResult
  | halt (resp : UnauthorizedResponse)
  | next (tok : AccessToken) (u : User)
  deriving Repr, DecidableEq

/-- Middleware from src/auth/middleware.go.  The Authorization header value is
the string authHeader, empty when the header is absent (Header.Get). -/
def Middleware (issuer : String) (now : Nat) (authHeader : String)
    (st : Store) : MwResult :=
  if authHeader == "" then
    .halt (unauthorized issuer "Missing Authorization header")
  else
    match splitN2 authHeader with
    | none => .halt (unauthorized issuer "Invalid Authorization header format")
    | some (scheme, tokenStr) =>
      if asciiLower scheme != "bearer" then
        .halt (unauthorized issuer "Invalid Authorization header format")
      else
        match ValidateAccessToken now st tokenStr with
        | .error .expired => .halt (unauthorized issuer "Access token expired")
        | .error .notFound => .halt (unauthorized issuer "Invalid access token")
        | .ok accessToken =>
          match GetUser st accessToken.userID with
          | none => .halt (unauthorized issuer "User not found")
          | some user => .next accessToken user

/-! ## Claim C6 -/

/-- Shape every bearer failure must take: 401, JSON error invalid_token, and
the WWW-Authenticate header naming the protected-resource metadata URL. -/
def isInvalidTokenHalt (issuer : String) (r : MwResult) : Prop :=
  ∃ msg, r = .halt
    { status := 401,
      wwwAuthenticate := "Bearer realm=\"MCP Server\", resource_metadata=\""
        ++ protectedResourceMetadataURL issuer ++ "\"",
      bodyError := "invalid_token",
      bodyErrorDescription := msg }

/-- C6: every failure cause of the bearer middleware — missing header,
malformed header, unknown token, expired token, or missing user record —
yields a 401 whose JSON error field is invalid_token and whose
WWW-Authenticate header names the protected-resource metadata URL, while a
stored token with expires_at not in the past and an existing user passes the
request on with that token and user attached. -/
theorem bearer_middleware_classification (issuer : String) (now : Nat)
    (h scheme tokenStr : String) (st : Store) (tok : AccessToken) (u : User) :
    isInvalidTokenHalt issuer (Middleware issuer now "" st)
    ∧ (splitN2 h = none → h ≠ "" →
      isInvalidTokenHalt issuer (Middleware issuer now h st))
    ∧ (splitN2 h = some (scheme, tokenStr) → h ≠ "" →
      asciiLower scheme ≠ "bearer" →
      isInvalidTokenHalt issuer (Middleware issuer now h st))
    ∧ (splitN2 h = some (scheme, tokenStr) → h ≠ "" →
      asciiLower scheme = "bearer" →
      GetAccessToken st tokenStr = none →
      isInvalidTokenHalt issuer (Middleware issuer now h st))
    ∧ (splitN2 h = some (scheme, tokenStr) → h ≠ "" →
      asciiLower scheme = "bearer" →
      GetAccessToken st tokenStr = some tok → now > tok.expiresAt →
      isInvalidTokenHalt issuer (Middleware issuer now h st))
    ∧ (splitN2 h = some (scheme, tokenStr) → h ≠ "" →
      asciiLower scheme = "bearer" →
      GetAccessToken st tokenStr = some tok → ¬ now > tok.expiresAt →
      GetUser st tok.userID = none →
      isInvalidTokenHalt issuer (Middleware issuer now h st))
    ∧ (splitN2 h = some (scheme, tokenStr) → h ≠ "" →
      asciiLower scheme = "bearer" →
      GetAccessToken st tokenStr = some tok → ¬ now > tok.expiresAt →
      GetUser st tok.userID = some u →
      Middleware issuer now h st = .next tok u) := by
  refine ⟨?_, ?_, ?_, ?_, ?_, ?_, ?_⟩
  · exact ⟨"Missing Authorization header", by simp [Middleware, unauthorized]⟩
  · intro hs hne
    have hb : (h == "") = false := by simpa using hne
    exact ⟨"Invalid Authorization header format",
      by simp [Middleware, unauthorized, hb, hs]⟩
  · intro hs hne hlow
    have hb : (h == "") = false := by simpa using hne
    have hl : (asciiLower scheme != "bearer") = true := by simpa using hlow
    exact ⟨"Invalid Authorization header format",
      by simp [Middleware, unauthorized, hb, hs, hl]⟩
  · intro hs hne hlow hmiss
    have hb : (h == "") = false := by simpa using hne
    have hl : (asciiLower scheme != "bearer") = false := by simpa using hlow
    exact ⟨"Invalid access token",
      by simp [Middleware, unauthorized, ValidateAccessToken, hb, hs, hl, hmiss]⟩
  · intro hs hne hlow htok hexp
    have hb : (h == "") = false := by simpa using hne
    have hl : (asciiLower scheme != "bearer") = false := by simpa using hlow
    exact ⟨"Access token expired",
      by simp [Middleware, unauthorized, ValidateAccessToken, hb, hs, hl, htok,
        hexp]⟩
  · intro hs hne hlow htok hexp huser
    have hb : (h == "") = false := by simpa using hne
    have hl : (asciiLower scheme != "bearer") = false := by simpa using hlow
    exact ⟨"User not found",
      by simp [Middleware, unauthorized, ValidateAccessToken, hb, hs, hl, htok,
        hexp, huser]⟩
  · intro hs hne hlow htok hexp huser
    have hb : (h == "") = false := by simpa using hne
    have hl : (asciiLower scheme != "bearer") = false := by simpa using hlow
    simp [Middleware, ValidateAccessToken, hb, hs, hl, htok, hexp, huser]

/-- Concrete evaluation of the C6 theorem: each failure cause yields the
uniform invalid_token 401, and a live token with its user passes through. -/
theorem bearer_middleware_classification_witness :
    isInvalidTokenHalt "https://mcp"
      (Middleware "https://mcp" 5 ""
        (StoreUser
          (StoreAccessToken Store.empty
            { token := "t1", tokenType := "Bearer", clientID := "cl",
              userID := "u1", scope := "s", resource := "",
              expiresAt := 100, createdAt := 0 })
          { id := "u1", gitHubLogin := "alice", gitHubID := 1, email := "",
            name := "", avatarURL := "" }))
    ∧ isInvalidTokenHalt "https://mcp"
      (Middleware "https://mcp" 5 "garbage"
        (StoreUser
          (StoreAccessToken Store.empty
            { token := "t1", tokenType := "Bearer", clientID := "cl",
              userID := "u1", scope := "s", resource := "",
              expiresAt := 100, createdAt := 0 })
          { id := "u1", gitHubLogin := "alice", gitHubID := 1, email := "",
            name := "", avatarURL := "" }))
    ∧ isInvalidTokenHalt "https://mcp"
      (Middleware "https://mcp" 5 "Bearer nope"
        (StoreUser
          (StoreAccessToken Store.empty
            { token := "t1", tokenType := "Bearer", clientID := "cl",
              userID := "u1", scope := "s", resource := "",
              expiresAt := 100, createdAt := 0 })
          { id := "u1", gitHubLogin := "alice", gitHubID := 1, email := "",
            name := "", avatarURL := "" }))
    ∧ isInvalidTokenHalt "https://mcp"
      (Middleware "https://mcp" 200 "Bearer t1"
        (StoreUser
          (StoreAccessToken Store.empty
            { token := "t1", tokenType := "Bearer", clientID := "cl",
              userID := "u1", scope := "s", resource := "",
              expiresAt := 100, createdAt := 0 })
          { id := "u1", gitHubLogin := "alice", gitHubID := 1, email := "",
            name := "", avatarURL := "" }))
    ∧ Middleware "https://mcp" 5 "Bearer t1"
        (StoreUser
          (StoreAccessToken Store.empty
            { token := "t1", tokenType := "Bearer", clientID := "cl",
              userID := "u1", scope := "s", resource := "",
              expiresAt := 100, createdAt := 0 })
          { id := "u1", gitHubLogin := "alice", gitHubID := 1, email := "",
            name := "", avatarURL := "" })
      = .next
        { token := "t1", tokenType := "Bearer", clientID := "cl",
          userID := "u1", scope := "s", resource := "",
          expiresAt := 100, createdAt := 0 }
        { id := "u1", gitHubLogin := "alice", gitHubID := 1, email := "",
          name := "", avatarURL := "" } :=
  ⟨(bearer_middleware_classification "https://mcp" 5 "" "" ""
      (StoreUser
        (StoreAccessToken Store.empty
          { token := "t1", tokenType := "Bearer", clientID := "cl",
            userID := "u1", scope := "s", resource := "",
            expiresAt := 100, createdAt := 0 })
        { id := "u1", gitHubLogin := "alice", gitHubID := 1, email := "",
          name := "", avatarURL := "" })
      { token := "t1", tokenType := "Bearer", clientID := "cl",
        userID := "u1", scope := "s", resource := "",
        expiresAt := 100, createdAt := 0 }
      { id := "u1", gitHubLogin := "alice", gitHubID := 1, email := "",
        name := "", avatarURL := "" }).1,
   (bearer_middleware_classification "https://mcp" 5 "garbage" "" ""
      (StoreUser
        (StoreAccessToken Store.empty
          { token := "t1", tokenType := "Bearer", clientID := "cl",
            userID := "u1", scope := "s", resource := "",
            expiresAt := 100, createdAt := 0 })
        { id := "u1", gitHubLogin := "alice", gitHubID := 1, email := "",
          name := "", avatarURL := "" })
      { token := "t1", tokenType := "Bearer", clientID := "cl",
        userID := "u1", scope := "s", resource := "",
        expiresAt := 100, createdAt := 0 }
      { id := "u1", gitHubLogin := "alice", gitHubID := 1, email := "",
        name := "", avatarURL := "" }).2.1 (by decide) (by decide),
   (bearer_middleware_classification "https://mcp" 5 "Bearer nope" "Bearer"
      "nope"
      (StoreUser
        (StoreAccessToken Store.empty
          { token := "t1", tokenType := "Bearer", clientID := "cl",
            userID := "u1", scope := "s", resource := "",
            expiresAt := 100, createdAt := 0 })
        { id := "u1", gitHubLogin := "alice", gitHubID := 1, email := "",
          name := "", avatarURL := "" })
      { token := "t1", tokenType := "Bearer", clientID := "cl",
        userID := "u1", scope := "s", resource := "",
        expiresAt := 100, createdAt := 0 }
      { id := "u1", gitHubLogin := "alice", gitHubID := 1, email := "",
        name := "", avatarURL := "" }).2.2.2.1 (by decide) (by decide)
      (by decide) (by decide),
   (bearer_middleware_classification "https://mcp" 200 "Bearer t1" "Bearer"
      "t1"
      (StoreUser
        (StoreAccessToken Store.empty
          { token := "t1", tokenType := "Bearer", clientID := "cl",
            userID := "u1", scope := "s", resource := "",
            expiresAt := 100, createdAt := 0 })
        { id := "u1", gitHubLogin := "alice", gitHubID := 1, email := "",
          name := "", avatarURL := "" })
      { token := "t1", tokenType := "Bearer", clientID := "cl",
        userID := "u1", scope := "s", resource := "",
        expiresAt := 100, createdAt := 0 }
      { id := "u1", gitHubLogin := "alice", gitHubID := 1, email := "",
        name := "", avatarURL := "" }).2.2.2.2.1 (by decide) (by decide)
      (by decide) (by decide) (by decide),
   (bearer_middleware_classification "https://mcp" 5 "Bearer t1" "Bearer"
      "t1"
      (StoreUser
        (StoreAccessToken Store.empty
          { token := "t1", tokenType := "Bearer", clientID := "cl",
            userID := "u1", scope := "s", resource := "",
            expiresAt := 100, createdAt := 0 })
        { id := "u1", gitHubLogin := "alice", gitHubID := 1, email := "",
          name := "", avatarURL := "" })
      { token := "t1", tokenType := "Bearer", clientID := "cl",
        userID := "u1", scope := "s", resource := "",
        expiresAt := 100, createdAt := 0 }
      { id := "u1", gitHubLogin := "alice", gitHubID := 1, email := "",
        name := "", avatarURL := "" }).2.2.2.2.2.2 (by decide) (by decide)
      (by decide) (by decide) (by decide) (by decide)⟩

/-! ## Authorization policy (src/auth/github.go, isUserAuthorized) -/

/-- ASCII case folding equality; models strings.EqualFold on the ASCII names
the allowlist compares. -/
def eqFold (a b : String) : Bool :=
  asciiLower a == asciiLower b

/-- An org/team allowlist pair from the configuration. -/
structure OrgTeam where
  org : String
  team : String
  deriving Repr, DecidableEq

/-- The configured allowlist (users, orgs, org/team pairs). -/
structure AllowlistConfig where
  users : List String
  orgs : List String
  teams : List OrgTeam
  deriving Repr, DecidableEq

/-- A GitHub organization as returned by the membership fetch. -/
structure GitHubOrg where
  login : String
  deriving Repr, DecidableEq

/-- A GitHub team as returned by the membership fetch: slug plus the login of
its organization. -/
structure GitHubTeam where
  slug : String
  orgLogin : String
  deriving Repr, DecidableEq

/-- isUserAuthorized from src/auth/github.go.  The two network fetches are the
Except-valued inputs orgsResult and teamsResult; an error value is a failed
fetch, which the source treats as no match and keeps going. -/
def isUserAuthorized (allow : AllowlistConfig) (login : String)
    (orgsResult : Except Unit (List GitHubOrg))
    (teamsResult : Except Unit (List GitHubTeam)) : Bool :=
  if allow.users.isEmpty && allow.orgs.isEmpty && allow.teams.isEmpty then true
  else if allow.users.any (fun u => eqFold u login) then true
  else
    let orgMatch :=
      if !allow.orgs.isEmpty || !allow.teams.isEmpty then
        match orgsResult with
        | .ok orgs =>
            orgs.any (fun o => allow.orgs.any (fun a => eqFold a o.login))
        | .error _ => false
      else false
    if orgMatch then true
    else
      let teamMatch :=
        if (!allow.orgs.isEmpty || !allow.teams.isEmpty)
            && !allow.teams.isEmpty then
          match teamsResult with
          | .ok teams =>
              teams.any (fun t => allow.teams.any (fun a =>
                eqFold a.org t.orgLogin && eqFold a.team t.slug))
          | .error _ => false
        else false
      teamMatch

/-! ## Claim C5 -/

/-- C5: with no allowlist entries every authenticated identity is authorized;
a configured user equal to the login up to ASCII case authorizes (alice
matches Alice); a login matching no user entry with no org or team match is
refused (bob against alice); and with only organization entries configured a
failing membership fetch yields not-authorized instead of an error. -/
theorem allowlist_logic (allow : AllowlistConfig) (login : String)
    (orgsResult : Except Unit (List GitHubOrg))
    (teamsResult : Except Unit (List GitHubTeam)) :
    (allow.users = [] → allow.orgs = [] → allow.teams = [] →
      isUserAuthorized allow login orgsResult teamsResult = true)
    ∧ (∀ entry ∈ allow.users, eqFold entry login = true →
      isUserAuthorized allow login orgsResult teamsResult = true)
    ∧ isUserAuthorized { users := ["alice"], orgs := [], teams := [] } "Alice"
        orgsResult teamsResult = true
    ∧ isUserAuthorized { users := ["alice"], orgs := [], teams := [] } "bob"
        orgsResult teamsResult = false
    ∧ (allow.users = [] → allow.teams = [] → allow.orgs ≠ [] →
      isUserAuthorized allow login (.error ()) teamsResult = false) := by
  refine ⟨?_, ?_, rfl, rfl, ?_⟩
  · intro hu ho ht
    simp [isUserAuthorized, hu, ho, ht]
  · intro entry hin hf
    cases hfull : allow.users.isEmpty
      && (allow.orgs.isEmpty && allow.teams.isEmpty) with
    | true => simp [isUserAuthorized, Bool.and_assoc, hfull]
    | false =>
      have h2 : allow.users.any (fun u => eqFold u login) = true :=
        List.any_eq_true.mpr ⟨entry, hin, hf⟩
      simp [isUserAuthorized, Bool.and_assoc, hfull, h2]
  · intro hu ht ho
    obtain ⟨us, os, ts⟩ := allow
    simp only at hu ht ho
    subst hu
    subst ht
    cases os with
    | nil => exact absurd rfl ho
    | cons a l => rfl

/-- Concrete evaluation of the C5 theorem on the allowlists named by the
spec and a failing organization fetch. -/
theorem allowlist_logic_witness :
    isUserAuthorized { users := [], orgs := [], teams := [] } "anyone"
      (.ok []) (.ok []) = true
    ∧ isUserAuthorized { users := ["alice"], orgs := [], teams := [] } "Alice"
      (.ok []) (.ok []) = true
    ∧ isUserAuthorized { users := ["alice"], orgs := [], teams := [] } "bob"
      (.ok []) (.ok []) = false
    ∧ isUserAuthorized { users := [], orgs := ["acme"], teams := [] } "bob"
      (.error ()) (.ok []) = false :=
  ⟨(allowlist_logic { users := [], orgs := [], teams := [] } "anyone"
      (.ok []) (.ok [])).1 rfl rfl rfl,
   (allowlist_logic { users := ["alice"], orgs := [], teams := [] } "Alice"
      (.ok []) (.ok [])).2.2.1,
   (allowlist_logic { users := ["alice"], orgs := [], teams := [] } "bob"
      (.ok []) (.ok [])).2.2.2.1,
   (allowlist_logic { users := [], orgs := ["acme"], teams := [] } "bob"
      (.error ()) (.ok [])).2.2.2.2 rfl rfl (by decide)⟩

/-! ## OAuth error helpers and the authorize and callback handlers
(src/auth/handlers.go and the error-helpers file) -/

/-- OAuthError JSON body per RFC 6749. -/
structure OAuthError where
  error : String
  errorDescription : String
  deriving Repr, DecidableEq

/-- An HTTP response of the authorize or callback endpoint: a redirect with a
query parameter set, a direct JSON error, or a plain-text http.Error. -/
inductive HResponse
  | redirect (status : Nat) (location : String) (query : List (String × String))
  | jsonErr (status : Nat) (body : OAuthError)
  | textErr (status : Nat) (message : String)
  deriving Repr, DecidableEq

/-- Query parameters authError sets on the redirect: the error code always,
the description and the caller state when non-empty. -/
def authErrorQuery (errorCode description state : String) :
    List (String × String) :=
  ("error", errorCode) ::
    ((if description != "" then [("error_description", description)] else []) ++
     (if state != "" then [("state", state)] else []))

/-- authError from the error-helpers file: with no redirect URI a direct 400
JSON error, otherwise a 302 redirect to the client redirect URI (modelled as
a query-less base) carrying the error parameters. -/
def authError (redirectURI errorCode description state : String) : HResponse :=
  if redirectURI == "" then
    .jsonErr 400 { error := errorCode, errorDescription := description }
  else
    .redirect 302 redirectURI (authErrorQuery errorCode description state)

/-- validateRedirectURI from src/auth/auth.go: exact match against one of the
registered URIs. -/
def validateRedirectURI (client : RegisteredClient) (redirectURI : String) : Bool :=
  client.redirectURIs.any (fun uri => uri == redirectURI)

/-- The GitHub authorize endpoint constant of src/auth/github.go. -/
def GitHubAuthorizeURL : String := "https://github.com/login/oauth/authorize"

/-- GetAuthorizationURL from src/auth/github.go, as base and query pair. -/
def GetAuthorizationURL (githubClientID callbackURL state : String) :
    String × List (String × String) :=
  (GitHubAuthorizeURL,
   [("client_id", githubClientID), ("redirect_uri", callbackURL),
    ("scope", "read:user read:org"), ("state", state)])

/-- GenerateAuthorizationCode from src/auth/tokens.go. -/
def GenerateAuthorizationCode (now : Nat)
    (fresh clientID redirectURI scope codeChallenge codeChallengeMethod
      resource userID : String) (st : Store) : AuthorizationCode × Store :=
  let c : AuthorizationCode :=
    { code := fresh, clientID := clientID, redirectURI := redirectURI,
      scope := scope, codeChallenge := codeChallenge,
      codeChallengeMethod := codeChallengeMethod, resource := resource,
      userID := userID, expiresAt := now + AuthCodeTTL, createdAt := now }
  (c, StoreAuthCode st c)

/-- Configuration the two handlers read. -/
structure AuthCfg where
  issuer : String
  githubClientID : String

/-- Query or form parameters of an /authorize request. -/
structure AuthorizeRequest where
  clientID : String
  redirectURI : String
  responseType : String
  scope : String
  state : String
  codeChallenge : String
  codeChallengeMethod : String
  resource : String

/-- handleAuthorize from src/auth/handlers.go. -/
def handleAuthorize (cfg : AuthCfg) (now : Nat) (freshReqID : String)
    (req : AuthorizeRequest) (st : Store) : HResponse × Store :=
  if req.responseType != "code" then
    (authError req.redirectURI "unsupported_response_type"
      "Only code response_type is supported" req.state, st)
  else
    match ValidateCodeChallenge req.codeChallenge req.codeChallengeMethod with
    | .error e => (authError req.redirectURI "invalid_request" e req.state, st)
    | .ok _ =>
      match GetClient st req.clientID with
      | none =>
          (authError req.redirectURI "invalid_client" "Unknown client_id"
            req.state, st)
      | some client =>
        if !(validateRedirectURI client req.redirectURI) then
          (authError req.redirectURI "invalid_request" "Invalid redirect_uri"
            req.state, st)
        else
          let st1 := StoreAuthRequest st
            { id := freshReqID, clientID := req.clientID,
              redirectURI := req.redirectURI, scope := req.scope,
              state := req.state, codeChallenge := req.codeChallenge,
              codeChallengeMethod := req.codeChallengeMethod,
              resource := req.resource, createdAt := now,
              expiresAt := now + 600 }
          let u := GetAuthorizationURL cfg.githubClientID
            (cfg.issuer ++ "/callback") freshReqID
          (.redirect 302 u.1 u.2, st1)

/-- A GitHub user profile as returned by the profile fetch. -/
structure GHUser where
  id : Int
  login : String
  name : String
  email : String
  avatarURL : String
  deriving Repr, DecidableEq

/-- Query parameters of the /callback request. -/
structure CallbackRequest where
  code : String
  state : String

/-- handleGitHubCallback from src/auth/handlers.go.  The three upstream
calls (code exchange, profile fetch, membership fetches inside the policy)
are Except-valued inputs. -/
def handleGitHubCallback (now : Nat)
    (exchangeResult : Except Unit String)
    (userResult : Except Unit GHUser)
    (allow : AllowlistConfig)
    (orgsResult : Except Unit (List GitHubOrg))
    (teamsResult : Except Unit (List GitHubTeam))
    (freshUserID freshCode : String)
    (req : CallbackRequest) (st : Store) : HResponse × Store :=
  if req.code == "" then
    (.textErr 400 "Missing authorization code", st)
  else
    match GetAuthRequest st req.state with
    | none => (.textErr 400 "Invalid or expired authorization request", st)
    | some authReq =>
      let st1 := DeleteAuthRequest st req.state
      if now > authReq.expiresAt then
        (authError authReq.redirectURI "access_denied"
          "Authorization request expired" authReq.state, st1)
      else
        match exchangeResult with
        | .error _ =>
            (authError authReq.redirectURI "server_error"
              "Failed to authenticate with GitHub" authReq.state, st1)
        | .ok _ =>
          match userResult with
          | .error _ =>
              (authError authReq.redirectURI "server_error"
                "Failed to get user info" authReq.state, st1)
          | .ok githubUser =>
            if !(isUserAuthorized allow githubUser.login orgsResult
                teamsResult) then
              (authError authReq.redirectURI "access_denied"
                "User not authorized" authReq.state, st1)
            else
              let user : User :=
                match GetUserByGitHubLogin st1 githubUser.login with
                | some existing =>
                    { existing with
                      email := githubUser.email,
                      name := githubUser.name,
                      avatarURL := githubUser.avatarURL }
                | none =>
                    { id := freshUserID, gitHubLogin := githubUser.login,
                      gitHubID := githubUser.id, email := githubUser.email,
                      name := githubUser.name,
                      avatarURL := githubUser.avatarURL }
              let st2 := StoreUser st1 user
              let p := GenerateAuthorizationCode now freshCode authReq.clientID
                authReq.redirectURI authReq.scope authReq.codeChallenge
                authReq.codeChallengeMethod authReq.resource user.id st2
              (.redirect 302 authReq.redirectURI
                ((if authReq.state != "" then [("state", authReq.state)]
                  else []) ++ [("code", p.1.code)]), p.2)

/-! ## Claim C4 -/

/-- C4: whenever a validation step fails at /authorize or /callback with a
redirect URI in hand — the request redirect URI at /authorize, the stored
pending-request redirect URI at /callback — the response is a 302 redirect to
that URI whose query carries the OAuth error code and, when non-empty, the
original caller state; a direct (non-redirect) error is returned only when no
redirect URI is known: authError with an empty URI, and the two /callback
steps before the pending request is resolved. -/
theorem failing_steps_redirect_with_error (cfg : AuthCfg) (now : Nat)
    (freshReqID uri ec d s : String) (req : AuthorizeRequest) (st : Store)
    (exchangeResult : Except Unit String) (userResult : Except Unit GHUser)
    (allow : AllowlistConfig) (orgsResult : Except Unit (List GitHubOrg))
    (teamsResult : Except Unit (List GitHubTeam))
    (freshUserID freshCode : String) (creq : CallbackRequest)
    (ar : PendingAuthRequest) :
    (uri ≠ "" →
      authError uri ec d s = .redirect 302 uri (authErrorQuery ec d s)
      ∧ lookupA (authErrorQuery ec d s) "error" = some ec
      ∧ (s ≠ "" → lookupA (authErrorQuery ec d s) "state" = some s))
    ∧ authError "" ec d s = .jsonErr 400 { error := ec, errorDescription := d }
    ∧ (req.responseType ≠ "code" →
      (handleAuthorize cfg now freshReqID req st).1
        = authError req.redirectURI "unsupported_response_type"
            "Only code response_type is supported" req.state)
    ∧ (∀ e, req.responseType = "code" →
      ValidateCodeChallenge req.codeChallenge req.codeChallengeMethod
        = .error e →
      (handleAuthorize cfg now freshReqID req st).1
        = authError req.redirectURI "invalid_request" e req.state)
    ∧ (req.responseType = "code" →
      ValidateCodeChallenge req.codeChallenge req.codeChallengeMethod
        = .ok () →
      GetClient st req.clientID = none →
      (handleAuthorize cfg now freshReqID req st).1
        = authError req.redirectURI "invalid_client" "Unknown client_id"
            req.state)
    ∧ (∀ client, req.responseType = "code" →
      ValidateCodeChallenge req.codeChallenge req.codeChallengeMethod
        = .ok () →
      GetClient st req.clientID = some client →
      validateRedirectURI client req.redirectURI = false →
      (handleAuthorize cfg now freshReqID req st).1
        = authError req.redirectURI "invalid_request" "Invalid redirect_uri"
            req.state)
    ∧ (creq.code = "" →
      (handleGitHubCallback now exchangeResult userResult allow orgsResult
        teamsResult freshUserID freshCode creq st).1
        = .textErr 400 "Missing authorization code")
    ∧ (creq.code ≠ "" → GetAuthRequest st creq.state = none →
      (handleGitHubCallback now exchangeResult userResult allow orgsResult
        teamsResult freshUserID freshCode creq st).1
        = .textErr 400 "Invalid or expired authorization request")
    ∧ (creq.code ≠ "" → GetAuthRequest st creq.state = some ar →
      now > ar.expiresAt →
      (handleGitHubCallback now exchangeResult userResult allow orgsResult
        teamsResult freshUserID freshCode creq st).1
        = authError ar.redirectURI "access_denied"
            "Authorization request expired" ar.state)
    ∧ (creq.code ≠ "" → GetAuthRequest st creq.state = some ar →
      ¬ now > ar.expiresAt → exchangeResult = .error () →
      (handleGitHubCallback now exchangeResult userResult allow orgsResult
        teamsResult freshUserID freshCode creq st).1
        = authError ar.redirectURI "server_error"
            "Failed to authenticate with GitHub" ar.state)
    ∧ (∀ gt, creq.code ≠ "" → GetAuthRequest st creq.state = some ar →
      ¬ now > ar.expiresAt → exchangeResult = .ok gt →
      userResult = .error () →
      (handleGitHubCallback now exchangeResult userResult allow orgsResult
        teamsResult freshUserID freshCode creq st).1
        = authError ar.redirectURI "server_error" "Failed to get user info"
            ar.state)
    ∧ (∀ gt gu, creq.code ≠ "" → GetAuthRequest st creq.state = some ar →
      ¬ now > ar.expiresAt → exchangeResult = .ok gt →
      userResult = .ok gu →
      isUserAuthorized allow gu.login orgsResult teamsResult = false →
      (handleGitHubCallback now exchangeResult userResult allow orgsResult
        teamsResult freshUserID freshCode creq st).1
        = authError ar.redirectURI "access_denied" "User not authorized"
            ar.state) := by
  refine ⟨?_, ?_, ?_, ?_, ?_, ?_, ?_, ?_, ?_, ?_, ?_, ?_⟩
  · intro hu
    have hb : (uri == "") = false := by simpa using hu
    refine ⟨by simp [authError, hb], by simp [authErrorQuery, lookupA_cons], ?_⟩
    intro hs
    have hsb : (s != "") = true := by simpa using hs
    cases hd : d != "" <;>
      simp [authErrorQuery, lookupA_cons, hsb, hd]
  · simp [authError]
  · intro hrt
    have hb : (req.responseType != "code") = true := by simpa using hrt
    simp [handleAuthorize, hb]
  · intro e hrt hcc
    simp [handleAuthorize, hrt, hcc]
  · intro hrt hcc hcl
    simp [handleAuthorize, hrt, hcc, hcl]
  · intro client hrt hcc hcl hru
    simp [handleAuthorize, hrt, hcc, hcl, hru]
  · intro hc
    simp [handleGitHubCallback, hc]
  · intro hc har
    have hb : (creq.code == "") = false := by simpa using hc
    simp [handleGitHubCallback, hb, har]
  · intro hc har hexp
    have hb : (creq.code == "") = false := by simpa using hc
    simp [handleGitHubCallback, hb, har, hexp]
  · intro hc har hexp hex
    have hb : (creq.code == "") = false := by simpa using hc
    simp [handleGitHubCallback, hb, har, hexp, hex]
  · intro gt hc har hexp hex hur
    have hb : (creq.code == "") = false := by simpa using hc
    simp [handleGitHubCallback, hb, har, hexp, hex, hur]
  · intro gt gu hc har hexp hex hur hauth
    have hb : (creq.code == "") = false := by simpa using hc
    simp [handleGitHubCallback, hb, har, hexp, hex, hur, hauth]

/-- Concrete evaluation of the C4 theorem: the redirect shape of authError,
an /authorize failure with a known redirect URI, the direct /callback error
when no pending request resolves, and the redirected /callback error on an
expired pending request. -/
theorem failing_steps_redirect_with_error_witness :
    (authError "https://client/cb" "access_denied" "x" "xyz"
      = .redirect 302 "https://client/cb"
          (authErrorQuery "access_denied" "x" "xyz")
      ∧ lookupA (authErrorQuery "access_denied" "x" "xyz") "error"
        = some "access_denied"
      ∧ (("xyz" : String) ≠ "" →
        lookupA (authErrorQuery "access_denied" "x" "xyz") "state"
          = some "xyz"))
    ∧ (handleAuthorize { issuer := "https://mcp", githubClientID := "gh" } 5
        "rid"
        { clientID := "cl", redirectURI := "https://client/cb",
          responseType := "token", scope := "", state := "xyz",
          codeChallenge := "", codeChallengeMethod := "", resource := "" }
        Store.empty).1
      = authError "https://client/cb" "unsupported_response_type"
          "Only code response_type is supported" "xyz"
    ∧ (handleGitHubCallback 5 (.error ()) (.error ())
        { users := [], orgs := [], teams := [] } (.ok []) (.ok []) "u" "ac"
        { code := "", state := "p1" } Store.empty).1
      = .textErr 400 "Missing authorization code"
    ∧ (handleGitHubCallback 100 (.error ()) (.error ())
        { users := [], orgs := [], teams := [] } (.ok []) (.ok []) "u" "ac"
        { code := "up123", state := "p1" }
        (StoreAuthRequest Store.empty
          { id := "p1", clientID := "cl", redirectURI := "https://client/cb",
            scope := "", state := "xyz", codeChallenge := "c",
            codeChallengeMethod := "plain", resource := "", createdAt := 0,
            expiresAt := 10 })).1
      = authError "https://client/cb" "access_denied"
          "Authorization request expired" "xyz" :=
  ⟨(failing_steps_redirect_with_error
      { issuer := "https://mcp", githubClientID := "gh" } 5 "rid"
      "https://client/cb" "access_denied" "x" "xyz"
      { clientID := "cl", redirectURI := "https://client/cb",
        responseType := "token", scope := "", state := "xyz",
        codeChallenge := "", codeChallengeMethod := "", resource := "" }
      Store.empty (.error ()) (.error ())
      { users := [], orgs := [], teams := [] } (.ok []) (.ok []) "u" "ac"
      { code := "", state := "p1" }
      { id := "p1", clientID := "cl", redirectURI := "https://client/cb",
        scope := "", state := "xyz", codeChallenge := "c",
        codeChallengeMethod := "plain", resource := "", createdAt := 0,
        expiresAt := 10 }).1 (by decide),
   (failing_steps_redirect_with_error
      { issuer := "https://mcp", githubClientID := "gh" } 5 "rid"
      "https://client/cb" "access_denied" "x" "xyz"
      { clientID := "cl", redirectURI := "https://client/cb",
        responseType := "token", scope := "", state := "xyz",
        codeChallenge := "", codeChallengeMethod := "", resource := "" }
      Store.empty (.error ()) (.error ())
      { users := [], orgs := [], teams := [] } (.ok []) (.ok []) "u" "ac"
      { code := "", state := "p1" }
      { id := "p1", clientID := "cl", redirectURI := "https://client/cb",
        scope := "", state := "xyz", codeChallenge := "c",
        codeChallengeMethod := "plain", resource := "", createdAt := 0,
        expiresAt := 10 }).2.2.1 (by decide),
   (failing_steps_redirect_with_error
      { issuer := "https://mcp", githubClientID := "gh" } 5 "rid"
      "https://client/cb" "access_denied" "x" "xyz"
      { clientID := "cl", redirectURI := "https://client/cb",
        responseType := "token", scope := "", state := "xyz",
        codeChallenge := "", codeChallengeMethod := "", resource := "" }
      Store.empty (.error ()) (.error ())
      { users := [], orgs := [], teams := [] } (.ok []) (.ok []) "u" "ac"
      { code := "", state := "p1" }
      { id := "p1", clientID := "cl", redirectURI := "https://client/cb",
        scope := "", state := "xyz", codeChallenge := "c",
        codeChallengeMethod := "plain", resource := "", createdAt := 0,
        expiresAt := 10 }).2.2.2.2.2.2.1 rfl,
   (failing_steps_redirect_with_error
      { issuer := "https://mcp", githubClientID := "gh" } 100 "rid"
      "https://client/cb" "access_denied" "x" "xyz"
      { clientID := "cl", redirectURI := "https://client/cb",
        responseType := "token", scope := "", state := "xyz",
        codeChallenge := "", codeChallengeMethod := "", resource := "" }
      (StoreAuthRequest Store.empty
        { id := "p1", clientID := "cl", redirectURI := "https://client/cb",
          scope := "", state := "xyz", codeChallenge := "c",
          codeChallengeMethod := "plain", resource := "", createdAt := 0,
          expiresAt := 10 })
      (.error ()) (.error ())
      { users := [], orgs := [], teams := [] } (.ok []) (.ok []) "u" "ac"
      { code := "up123", state := "p1" }
      { id := "p1", clientID := "cl", redirectURI := "https://client/cb",
        scope := "", state := "xyz", codeChallenge := "c",
        codeChallengeMethod := "plain", resource := "", createdAt := 0,
        expiresAt := 10 }).2.2.2.2.2.2.2.2.1 (by decide) (by decide)
      (by decide)⟩

/-! ## Transport session layer (HTTP/SSE transport file) -/

/-- An SSE client session: id and the optionally bound principal.  The
response and done channels are per-session queues with no protocol state the
claims observe, so they are not part of the embedded record. -/
structure TSession where
  id : String
  user : Option User
  clientID : String
  deriving Repr, DecidableEq

/-- CreateSession from the transport file: a new session stored under a
freshly generated UUID; the random bytes behind generateUUID are summarized
as the explicit freshID parameter. -/
def CreateSession (freshID : String) (sm : List (String × TSession)) :
    TSession × List (String × TSession) :=
  let s : TSession := { id := freshID, user := none, clientID := "" }
  (s, insertA sm freshID s)

/-- GetSession of the session manager. -/
def GetTSession (sm : List (String × TSession)) (id : String) :
    Option TSession :=
  lookupA sm id

/-- The hexadecimal alphabet of hex.EncodeToString. -/
def hexDigit (n : Nat) : Char :=
  [Char.ofNat 48, Char.ofNat 49, Char.ofNat 50, Char.ofNat 51, Char.ofNat 52,
   Char.ofNat 53, Char.ofNat 54, Char.ofNat 55, Char.ofNat 56, Char.ofNat 57,
   Char.ofNat 97, Char.ofNat 98, Char.ofNat 99, Char.ofNat 100,
   Char.ofNat 101, Char.ofNat 102].getD n (Char.ofNat 48)

/-- hex.EncodeToString on a byte list: two hex digits per byte. -/
def hexBytes : List Nat → List Char
  | [] => []
  | b :: bs => hexDigit (b / 16 % 16) :: hexDigit (b % 16) :: hexBytes bs

/-- generateUUID from the transport file: on the 16 random bytes it sets the
version nibble of byte 6 to 4 and the variant bits of byte 8, then prints the
8-4-4-4-12 hex groups.  The masked or is written arithmetically:
b6 and 0x0f or 0x40 is b6 mod 16 + 64, b8 and 0x3f or 0x80 is
b8 mod 64 + 128. -/
def generateUUID (bytes : List Nat) : String :=
  let b := bytes.take 6
    ++ [bytes.getD 6 0 % 16 + 64, bytes.getD 7 0, bytes.getD 8 0 % 64 + 128]
    ++ (bytes.drop 9).take 7
  String.mk (hexBytes (b.take 4) ++ '-' :: hexBytes ((b.drop 4).take 2)
    ++ '-' :: hexBytes ((b.drop 6).take 2)
    ++ '-' :: hexBytes ((b.drop 8).take 2)
    ++ '-' :: hexBytes ((b.drop 10).take 6))

/-- Hexadecimal digit characters 0-9 and a-f. -/
def isHexChar (c : Char) : Bool :=
  (decide (c ≥ '0') && decide (c ≤ '9')) ||
  (decide (c ≥ 'a') && decide (c ≤ 'f'))

theorem isHexChar_hexDigit_mod (n : Nat) :
    isHexChar (hexDigit (n % 16)) = true := by
  have h : n % 16 < 16 := Nat.mod_lt _ (by decide)
  generalize n % 16 = m at h ⊢
  interval_cases m <;> decide

/-- Principal-carrying request context as produced by the bearer middleware. -/
structure ReqCtx where
  user : Option User
  accessToken : Option AccessToken

/-- Outcome of a POST on the protocol endpoint. -/
inductive PostOutcome
  | badRequest (message : String)
  | notFound (message : String)
  | okWithSession (sessionID : String)
  | okPlain
  deriving Repr, DecidableEq

/-- handlePost from the transport file.  An initialize message reuses the
header session when it resolves and otherwise creates a session, binding the
context principal when auth is enabled (the source mutates the stored session
through its pointer, embedded here as re-inserting the updated record); any
other message requires a known session id. -/
def handlePost (authEnabled : Bool) (ctx : ReqCtx) (isInitialize : Bool)
    (hdrSessionID freshID : String) (sm : List (String × TSession)) :
    PostOutcome × List (String × TSession) :=
  if isInitialize then
    match (if hdrSessionID != "" then GetTSession sm hdrSessionID else none) with
    | some s => (.okWithSession s.id, sm)
    | none =>
        let created := (CreateSession freshID sm).1
        let s1 :=
          if authEnabled then
            let sa :=
              match ctx.user with
              | some u => { created with user := some u }
              | none => created
            match ctx.accessToken with
            | some t => { sa with clientID := t.clientID }
            | none => sa
          else created
        (.okWithSession s1.id, insertA (CreateSession freshID sm).2 s1.id s1)
  else
    if hdrSessionID == "" then
      (.badRequest "Missing Mcp-Session-Id header", sm)
    else
      match GetTSession sm hdrSessionID with
      | none => (.notFound "Session not found", sm)
      | some _ => (.okPlain, sm)

/-- Outcome of a GET on the protocol endpoint: 404, or an open SSE stream
that always echoes the session id and sends the endpoint event exactly when
the session is new. -/
inductive GetOutcome
  | notFound (message : String)
  | stream (sessionID : String) (endpointEvent : Bool)
  deriving Repr, DecidableEq

/-- handleGet from the transport file: with no session header a session is
created (push-first) with the same principal binding as handlePost; with a
header the session must resolve or the request is a 404. -/
def handleGet (authEnabled : Bool) (ctx : ReqCtx)
    (hdrSessionID freshID : String) (sm : List (String × TSession)) :
    GetOutcome × List (String × TSession) :=
  if hdrSessionID == "" then
    let created := (CreateSession freshID sm).1
    let s1 :=
      if authEnabled then
        let sa :=
          match ctx.user with
          | some u => { created with user := some u }
          | none => created
        match ctx.accessToken with
        | some t => { sa with clientID := t.clientID }
        | none => sa
      else created
    (.stream s1.id true, insertA (CreateSession freshID sm).2 s1.id s1)
  else
    match GetTSession sm hdrSessionID with
    | none => (.notFound "Session not found", sm)
    | some s => (.stream s.id false, sm)

/-! ## Claim C8 -/

/-- C8: push-first (GET with no session header) and request-first (POST of an
initialize with no session header) run the same CreateSession operation and
leave identical session state: the resulting manager maps are equal, both
return the fresh session id, the bound principal is the context user and the
context token client id in both, the created session is accepted by later
protocol requests, an unknown session id is rejected as not found by either
verb, and the generated id always prints as five dash-separated hex groups of
8-4-4-4-12 characters with version nibble 4. -/
theorem session_establishment_equivalence (authEnabled : Bool) (ctx : ReqCtx)
    (freshID fresh2 sid : String) (sm : List (String × TSession))
    (u : User) (t : AccessToken)
    (b0 b1 b2 b3 b4 b5 b6 b7 b8 b9 b10 b11 b12 b13 b14 b15 : Nat) :
    (handleGet authEnabled ctx "" freshID sm).2
      = (handlePost authEnabled ctx true "" freshID sm).2
    ∧ (handleGet authEnabled ctx "" freshID sm).1 = .stream freshID true
    ∧ (handlePost authEnabled ctx true "" freshID sm).1
      = .okWithSession freshID
    ∧ (authEnabled = true → ctx.user = some u → ctx.accessToken = some t →
      GetTSession (handleGet authEnabled ctx "" freshID sm).2 freshID
        = some { id := freshID, user := some u, clientID := t.clientID })
    ∧ (freshID ≠ "" →
      (handlePost authEnabled ctx false freshID fresh2
        (handleGet authEnabled ctx "" freshID sm).2).1 = .okPlain)
    ∧ (sid ≠ "" → GetTSession sm sid = none →
      (handlePost authEnabled ctx false sid freshID sm).1
        = .notFound "Session not found"
      ∧ (handleGet authEnabled ctx sid freshID sm).1
        = .notFound "Session not found")
    ∧ (∃ g1 g2 g3 g4 g5 : List Char,
      generateUUID [b0, b1, b2, b3, b4, b5, b6, b7, b8, b9, b10, b11, b12,
        b13, b14, b15]
        = String.mk (g1 ++ '-' :: g2 ++ '-' :: g3 ++ '-' :: g4 ++ '-' :: g5)
      ∧ g1.length = 8 ∧ g2.length = 4 ∧ g3.length = 4 ∧ g4.length = 4
      ∧ g5.length = 12
      ∧ (g1 ++ g2 ++ g3 ++ g4 ++ g5).all isHexChar = true
      ∧ g3.head? = some '4') := by
  obtain ⟨cu, ct⟩ := ctx
  refine ⟨?_, ?_, ?_, ?_, ?_, ?_, ?_⟩
  · rfl
  · cases authEnabled <;> cases cu <;> cases ct <;> rfl
  · cases authEnabled <;> cases cu <;> cases ct <;> rfl
  · intro haE hu ht
    simp only at hu ht
    subst haE
    subst hu
    subst ht
    exact lookupA_insertA_self _ _ _
  · intro hf
    have hb : (freshID == "") = false := by simpa using hf
    cases authEnabled <;> cases cu <;> cases ct <;>
      simp [handlePost, handleGet, hb, GetTSession, CreateSession,
        lookupA_insertA_self]
  · intro hs hnone
    have hb : (sid == "") = false := by simpa using hs
    constructor
    · simp [handlePost, hb, hnone]
    · simp [handleGet, hb, hnone]
  · refine ⟨hexBytes [b0, b1, b2, b3], hexBytes [b4, b5],
      hexBytes [b6 % 16 + 64, b7], hexBytes [b8 % 64 + 128, b9],
      hexBytes [b10, b11, b12, b13, b14, b15],
      rfl, rfl, rfl, rfl, rfl, rfl, ?_, ?_⟩
    · simp [hexBytes, List.all_cons, List.all_append, isHexChar_hexDigit_mod]
    · have h4 : (b6 % 16 + 64) / 16 % 16 = 4 := by omega
      simp [hexBytes, h4, hexDigit]

/-- Concrete evaluation of the C8 theorem: a push-first session bound to the
authenticated principal, accepted by a later POST, and a 404 for an unknown
session id on both verbs. -/
theorem session_establishment_equivalence_witness :
    GetTSession
      (handleGet true
        { user := some { id := "u1", gitHubLogin := "alice", gitHubID := 1, email := "", name := "", avatarURL := "" },
          accessToken := some { token := "t1", tokenType := "Bearer", clientID := "cl", userID := "u1", scope := "s", resource := "", expiresAt := 100, createdAt := 0 } }
        "" "s1" []).2 "s1"
      = some { id := "s1", user := some { id := "u1", gitHubLogin := "alice", gitHubID := 1, email := "", name := "", avatarURL := "" }, clientID := "cl" }
    ∧ (handlePost true
        { user := some { id := "u1", gitHubLogin := "alice", gitHubID := 1, email := "", name := "", avatarURL := "" },
          accessToken := some { token := "t1", tokenType := "Bearer", clientID := "cl", userID := "u1", scope := "s", resource := "", expiresAt := 100, createdAt := 0 } }
        false "s1" "s2"
        (handleGet true
          { user := some { id := "u1", gitHubLogin := "alice", gitHubID := 1, email := "", name := "", avatarURL := "" },
            accessToken := some { token := "t1", tokenType := "Bearer", clientID := "cl", userID := "u1", scope := "s", resource := "", expiresAt := 100, createdAt := 0 } }
          "" "s1" []).2).1 = .okPlain
    ∧ ((handlePost true
        { user := some { id := "u1", gitHubLogin := "alice", gitHubID := 1, email := "", name := "", avatarURL := "" },
          accessToken := some { token := "t1", tokenType := "Bearer", clientID := "cl", userID := "u1", scope := "s", resource := "", expiresAt := 100, createdAt := 0 } }
        false "zz" "s1" []).1 = .notFound "Session not found"
      ∧ (handleGet true
          { user := some { id := "u1", gitHubLogin := "alice", gitHubID := 1, email := "", name := "", avatarURL := "" },
            accessToken := some { token := "t1", tokenType := "Bearer", clientID := "cl", userID := "u1", scope := "s", resource := "", expiresAt := 100, createdAt := 0 } }
          "zz" "s1" []).1 = .notFound "Session not found") :=
  ⟨(session_establishment_equivalence true
      { user := some { id := "u1", gitHubLogin := "alice", gitHubID := 1, email := "", name := "", avatarURL := "" },
        accessToken := some { token := "t1", tokenType := "Bearer", clientID := "cl", userID := "u1", scope := "s", resource := "", expiresAt := 100, createdAt := 0 } }
      "s1" "s2" "zz" []
      { id := "u1", gitHubLogin := "alice", gitHubID := 1, email := "",
        name := "", avatarURL := "" }
      { token := "t1", tokenType := "Bearer", clientID := "cl",
        userID := "u1", scope := "s", resource := "", expiresAt := 100,
        createdAt := 0 }
      0 1 2 3 4 5 6 7 8 9 10 11 12 13 14 15).2.2.2.1 rfl rfl rfl,
   (session_establishment_equivalence true
      { user := some { id := "u1", gitHubLogin := "alice", gitHubID := 1, email := "", name := "", avatarURL := "" },
        accessToken := some { token := "t1", tokenType := "Bearer", clientID := "cl", userID := "u1", scope := "s", resource := "", expiresAt := 100, createdAt := 0 } }
      "s1" "s2" "zz" []
      { id := "u1", gitHubLogin := "alice", gitHubID := 1, email := "",
        name := "", avatarURL := "" }
      { token := "t1", tokenType := "Bearer", clientID := "cl",
        userID := "u1", scope := "s", resource := "", expiresAt := 100,
        createdAt := 0 }
      0 1 2 3 4 5 6 7 8 9 10 11 12 13 14 15).2.2.2.2.1 (by decide),
   (session_establishment_equivalence true
      { user := some { id := "u1", gitHubLogin := "alice", gitHubID := 1, email := "", name := "", avatarURL := "" },
        accessToken := some { token := "t1", tokenType := "Bearer", clientID := "cl", userID := "u1", scope := "s", resource := "", expiresAt := 100, createdAt := 0 } }
      "s1" "s2" "zz" []
      { id := "u1", gitHubLogin := "alice", gitHubID := 1, email := "",
        name := "", avatarURL := "" }
      { token := "t1", tokenType := "Bearer", clientID := "cl",
        userID := "u1", scope := "s", resource := "", expiresAt := 100,
        createdAt := 0 }
      0 1 2 3 4 5 6 7 8 9 10 11 12 13 14 15).2.2.2.2.2.1 (by decide) rfl⟩

/-! ## Claim C7: secondary-index maintenance -/

/-- The index-maintaining store writes named by the claim: store a user,
store a session, delete a session.  Each is applied as one transaction. -/
inductive StoreOp
  | su (u : User)
  | ss (s : AuthSession)
  | ds (sessionID : String)

/-- One transaction of the storage layer. -/
def applyOp (st : Store) : StoreOp → Store
  | .su u => StoreUser st u
  | .ss s => StoreSession st s
  | .ds sid => DeleteSession st sid

/-- A sequence of transactions. -/
def applyOps (st : Store) (ops : List StoreOp) : Store :=
  ops.foldl applyOp st

/-- The invariant asserted by the claim: every index entry maps to a primary
record that exists and bears the indexed attribute. -/
def IndexEntriesValid (st : Store) : Prop :=
  (∀ login uid, lookupA st.usersByGitHub login = some uid →
    ∃ u, lookupA st.users uid = some u ∧ u.gitHubLogin = login)
  ∧ (∀ tok sid, lookupA st.sessionsByToken tok = some sid →
    ∃ s, lookupA st.sessions sid = some s ∧ s.accessToken = tok)

/-- The invariant carried through the induction: both directions for both
indices (the reverse user direction up to login sharing). -/
def IndexInv (st : Store) : Prop :=
  (∀ login uid, lookupA st.usersByGitHub login = some uid →
    ∃ u, lookupA st.users uid = some u ∧ u.gitHubLogin = login)
  ∧ (∀ uid u, lookupA st.users uid = some u →
    ∃ uid2, lookupA st.usersByGitHub u.gitHubLogin = some uid2)
  ∧ (∀ tok sid, lookupA st.sessionsByToken tok = some sid →
    ∃ s, lookupA st.sessions sid = some s ∧ s.accessToken = tok)
  ∧ (∀ sid s, lookupA st.sessions sid = some s →
    lookupA st.sessionsByToken s.accessToken = some sid)

theorem IndexInv_StoreUser (st : Store) (u : User) (hinv : IndexInv st)
    (hok : ∀ old, lookupA st.users u.id = some old →
      old.gitHubLogin = u.gitHubLogin) :
    IndexInv (StoreUser st u) := by
  obtain ⟨h1, h2, h3, h4⟩ := hinv
  refine ⟨?_, ?_, h3, h4⟩
  · intro login uid hl
    by_cases he : login = u.gitHubLogin
    · subst he
      rw [show (StoreUser st u).usersByGitHub
          = insertA st.usersByGitHub u.gitHubLogin u.id from rfl,
        lookupA_insertA_self] at hl
      obtain rfl := Option.some.inj hl
      exact ⟨u, lookupA_insertA_self _ _ _, rfl⟩
    · rw [show (StoreUser st u).usersByGitHub
          = insertA st.usersByGitHub u.gitHubLogin u.id from rfl,
        lookupA_insertA_ne _ _ _ _ he] at hl
      obtain ⟨u2, hu2, hl2⟩ := h1 login uid hl
      by_cases hid : uid = u.id
      · subst hid
        exact absurd (hl2.symm.trans (hok u2 hu2)) he
      · refine ⟨u2, ?_, hl2⟩
        rw [show (StoreUser st u).users = insertA st.users u.id u from rfl,
          lookupA_insertA_ne _ _ _ _ hid]
        exact hu2
  · intro uid u2 hu
    by_cases hid : uid = u.id
    · subst hid
      rw [show (StoreUser st u).users = insertA st.users u.id u from rfl,
        lookupA_insertA_self] at hu
      obtain rfl := Option.some.inj hu
      exact ⟨u.id, lookupA_insertA_self _ _ _⟩
    · rw [show (StoreUser st u).users = insertA st.users u.id u from rfl,
        lookupA_insertA_ne _ _ _ _ hid] at hu
      obtain ⟨uid2, hidx⟩ := h2 uid u2 hu
      by_cases hl : u2.gitHubLogin = u.gitHubLogin
      · rw [hl]
        exact ⟨u.id, lookupA_insertA_self _ _ _⟩
      · refine ⟨uid2, ?_⟩
        rw [show (StoreUser st u).usersByGitHub
            = insertA st.usersByGitHub u.gitHubLogin u.id from rfl,
          lookupA_insertA_ne _ _ _ _ hl]
        exact hidx

theorem IndexInv_StoreSession (st : Store) (s : AuthSession)
    (hinv : IndexInv st)
    (hok1 : ∀ old, lookupA st.sessions s.sessionID = some old →
      old.accessToken = s.accessToken)
    (hok2 : ∀ sid2 s2, lookupA st.sessions sid2 = some s2 →
      s2.accessToken = s.accessToken → sid2 = s.sessionID) :
    IndexInv (StoreSession st s) := by
  obtain ⟨h1, h2, h3, h4⟩ := hinv
  refine ⟨h1, h2, ?_, ?_⟩
  · intro tok sid hl
    by_cases he : tok = s.accessToken
    · subst he
      rw [show (StoreSession st s).sessionsByToken
          = insertA st.sessionsByToken s.accessToken s.sessionID from rfl,
        lookupA_insertA_self] at hl
      obtain rfl := Option.some.inj hl
      exact ⟨s, lookupA_insertA_self _ _ _, rfl⟩
    · rw [show (StoreSession st s).sessionsByToken
          = insertA st.sessionsByToken s.accessToken s.sessionID from rfl,
        lookupA_insertA_ne _ _ _ _ he] at hl
      obtain ⟨s2, hs2, ht2⟩ := h3 tok sid hl
      by_cases hid : sid = s.sessionID
      · subst hid
        exact absurd (ht2.symm.trans (hok1 s2 hs2)) he
      · refine ⟨s2, ?_, ht2⟩
        rw [show (StoreSession st s).sessions
            = insertA st.sessions s.sessionID s from rfl,
          lookupA_insertA_ne _ _ _ _ hid]
        exact hs2
  · intro sid s2 hs
    by_cases hid : sid = s.sessionID
    · subst hid
      rw [show (StoreSession st s).sessions
          = insertA st.sessions s.sessionID s from rfl,
        lookupA_insertA_self] at hs
      obtain rfl := Option.some.inj hs
      exact lookupA_insertA_self _ _ _
    · rw [show (StoreSession st s).sessions
          = insertA st.sessions s.sessionID s from rfl,
        lookupA_insertA_ne _ _ _ _ hid] at hs
      have hne : s2.accessToken ≠ s.accessToken :=
        fun hcontra => hid (hok2 sid s2 hs hcontra)
      rw [show (StoreSession st s).sessionsByToken
          = insertA st.sessionsByToken s.accessToken s.sessionID from rfl,
        lookupA_insertA_ne _ _ _ _ hne]
      exact h4 sid s2 hs

theorem IndexInv_DeleteSession (st : Store) (sid0 : String)
    (hinv : IndexInv st) : IndexInv (DeleteSession st sid0) := by
  obtain ⟨h1, h2, h3, h4⟩ := hinv
  cases hm : lookupA st.sessions sid0 with
  | some s0 =>
      have hDs : (DeleteSession st sid0).sessions = eraseA st.sessions sid0 := by
        unfold DeleteSession
        rw [hm]
      have hDt : (DeleteSession st sid0).sessionsByToken
          = eraseA st.sessionsByToken s0.accessToken := by
        unfold DeleteSession
        rw [hm]
      have hDg : (DeleteSession st sid0).usersByGitHub = st.usersByGitHub := by
        unfold DeleteSession
        rw [hm]
      have hDu : (DeleteSession st sid0).users = st.users := by
        unfold DeleteSession
        rw [hm]
      refine ⟨?_, ?_, ?_, ?_⟩
      · intro login uid hl
        rw [hDg] at hl
        rw [hDu]
        exact h1 login uid hl
      · intro uid u hu
        rw [hDu] at hu
        rw [hDg]
        exact h2 uid u hu
      · intro tok sid hl
        rw [hDt] at hl
        by_cases he : tok = s0.accessToken
        · subst he
          rw [lookupA_eraseA_self] at hl
          cases hl
        · rw [lookupA_eraseA_ne _ _ _ he] at hl
          obtain ⟨s2, hs2, ht2⟩ := h3 tok sid hl
          by_cases hid : sid = sid0
          · subst hid
            obtain rfl := Option.some.inj (hm.symm.trans hs2)
            exact absurd ht2.symm he
          · refine ⟨s2, ?_, ht2⟩
            rw [hDs, lookupA_eraseA_ne _ _ _ hid]
            exact hs2
      · intro sid s2 hs
        rw [hDs] at hs
        by_cases hid : sid = sid0
        · subst hid
          rw [lookupA_eraseA_self] at hs
          cases hs
        · rw [lookupA_eraseA_ne _ _ _ hid] at hs
          have hne : s2.accessToken ≠ s0.accessToken := by
            intro hcontra
            have ha := h4 sid s2 hs
            have hb := h4 sid0 s0 hm
            rw [hcontra] at ha
            rw [ha] at hb
            exact hid (Option.some.inj hb)
          rw [hDt, lookupA_eraseA_ne _ _ _ hne]
          exact h4 sid s2 hs
  | none =>
      have hDs : (DeleteSession st sid0).sessions = eraseA st.sessions sid0 := by
        unfold DeleteSession
        rw [hm]
      have hDt : (DeleteSession st sid0).sessionsByToken
          = st.sessionsByToken := by
        unfold DeleteSession
        rw [hm]
      have hDg : (DeleteSession st sid0).usersByGitHub = st.usersByGitHub := by
        unfold DeleteSession
        rw [hm]
      have hDu : (DeleteSession st sid0).users = st.users := by
        unfold DeleteSession
        rw [hm]
      refine ⟨?_, ?_, ?_, ?_⟩
      · intro login uid hl
        rw [hDg] at hl
        rw [hDu]
        exact h1 login uid hl
      · intro uid u hu
        rw [hDu] at hu
        rw [hDg]
        exact h2 uid u hu
      · intro tok sid hl
        rw [hDt] at hl
        obtain ⟨s2, hs2, ht2⟩ := h3 tok sid hl
        by_cases hid : sid = sid0
        · subst hid
          rw [hm] at hs2
          cases hs2
        · refine ⟨s2, ?_, ht2⟩
          rw [hDs, lookupA_eraseA_ne _ _ _ hid]
          exact hs2
      · intro sid s2 hs
        rw [hDs] at hs
        by_cases hid : sid = sid0
        · subst hid
          rw [lookupA_eraseA_self] at hs
          cases hs
        · rw [lookupA_eraseA_ne _ _ _ hid] at hs
          rw [hDt]
          exact h4 sid s2 hs

/-- Validity of one operation relative to the current state: a re-stored
user keeps its login; a re-stored session keeps its access token and does
not take over the token of another live session. -/
def opOk (st : Store) : StoreOp → Prop
  | .su u => ∀ old, lookupA st.users u.id = some old →
      old.gitHubLogin = u.gitHubLogin
  | .ss s => (∀ old, lookupA st.sessions s.sessionID = some old →
        old.accessToken = s.accessToken)
      ∧ (∀ sid2 s2, lookupA st.sessions sid2 = some s2 →
        s2.accessToken = s.accessToken → sid2 = s.sessionID)
  | .ds _ => True

/-- Validity of a sequence, each operation judged in the state it runs in. -/
def opsOk (st : Store) : List StoreOp → Prop
  | [] => True
  | op :: rest => opOk st op ∧ opsOk (applyOp st op) rest

theorem IndexInv_empty : IndexInv Store.empty := by
  refine ⟨?_, ?_, ?_, ?_⟩ <;> intro a b h <;>
    simp [lookupA, Store.empty] at h

theorem IndexInv_applyOp (st : Store) (op : StoreOp) (hinv : IndexInv st)
    (hok : opOk st op) : IndexInv (applyOp st op) := by
  cases op with
  | su u => exact IndexInv_StoreUser st u hinv hok
  | ss s => exact IndexInv_StoreSession st s hinv hok.1 hok.2
  | ds sid => exact IndexInv_DeleteSession st sid hinv

theorem IndexInv_applyOps (ops : List StoreOp) (st : Store)
    (hinv : IndexInv st) (hok : opsOk st ops) :
    IndexInv (applyOps st ops) := by
  induction ops generalizing st with
  | nil => exact hinv
  | cons op rest ih =>
      exact ih (applyOp st op) (IndexInv_applyOp st op hinv hok.1) hok.2

/-- C7 (amended): every index-maintaining write updates the primary record
and its index entry in one transaction (one applyOp step), and for every
sequence of these operations from the fresh store in which a re-stored user
keeps its login and a re-stored session keeps its access token without
taking over the token of another live session, every index entry maps to a
primary record that exists and bears the indexed attribute. -/
theorem store_index_integrity (ops : List StoreOp)
    (hok : opsOk Store.empty ops) :
    IndexEntriesValid (applyOps Store.empty ops) := by
  have h := IndexInv_applyOps ops Store.empty IndexInv_empty hok
  exact ⟨h.1, h.2.2.1⟩

/-- C7 counterexample: as stated the claim fails on the code.  Re-storing
user id u1 with its login changed from a to b leaves the stale index entry
a maps-to u1 while the stored record now carries login b, so after this
sequence of the listed operations an index entry no longer maps to a record
bearing the indexed attribute. -/
theorem store_index_attribute_counterexample :
    ¬ IndexEntriesValid
      (applyOps Store.empty
        [.su { id := "u1", gitHubLogin := "a", gitHubID := 1, email := "",
               name := "", avatarURL := "" },
         .su { id := "u1", gitHubLogin := "b", gitHubID := 1, email := "",
               name := "", avatarURL := "" }]) := by
  intro h
  obtain ⟨u, hu, hl⟩ := h.1 "a" "u1" (by decide)
  have hval : lookupA
      (applyOps Store.empty
        [.su { id := "u1", gitHubLogin := "a", gitHubID := 1, email := "",
               name := "", avatarURL := "" },
         .su { id := "u1", gitHubLogin := "b", gitHubID := 1, email := "",
               name := "", avatarURL := "" }]).users "u1"
      = some { id := "u1", gitHubLogin := "b", gitHubID := 1, email := "",
               name := "", avatarURL := "" } := by decide
  rw [hval] at hu
  obtain rfl := Option.some.inj hu
  exact absurd hl (by decide)

/-- Concrete evaluation of the amended C7 theorem on a valid sequence: store
a user, store a session, delete the session. -/
theorem store_index_integrity_witness :
    IndexEntriesValid
      (applyOps Store.empty
        [.su { id := "u1", gitHubLogin := "a", gitHubID := 1, email := "",
               name := "", avatarURL := "" },
         .ss { sessionID := "s1", userID := "u1", clientID := "cl",
               accessToken := "t1", createdAt := 0, lastUsedAt := 0 },
         .ds "s1"]) :=
  store_index_integrity
    [.su { id := "u1", gitHubLogin := "a", gitHubID := 1, email := "",
           name := "", avatarURL := "" },
     .ss { sessionID := "s1", userID := "u1", clientID := "cl",
           accessToken := "t1", createdAt := 0, lastUsedAt := 0 },
     .ds "s1"]
    (by
      refine ⟨?_, ⟨?_, ?_⟩, trivial, trivial⟩
      · intro old h
        simp [Store.empty, lookupA] at h
      · intro old h
        simp [applyOp, StoreUser, Store.empty, lookupA, insertA, eraseA] at h
      · intro sid2 s2 h
        simp [applyOp, StoreUser, Store.empty, lookupA, insertA, eraseA] at h)

end GoMcp
